import Mathlib

/-!
Verification development for the SDL GPU front-end (`src/gpu/SDL_gpu.c`),
the D3D12 back-end core (`src/gpu/d3d12/SDL_gpu_d3d12.c`) and the 2D
renderer built on the portable API (the renderer translation unit inside
`src/gpu/SDL_gpu.c`).  Each definition is a shallow embedding of the
corresponding C function: control flow, checks and field updates are
mirrored one-for-one; calls into native D3D12 / the back-end vtable are
represented by recording that the delegation happened (and, where a claim
needs it, by the list of commands the call records).
-/

namespace SDLGpu

/-! ## Command buffer common header (SDL_sysgpu.h / SDL_gpu.c)

`CommandBufferCommonHeader` carries the per-command-buffer state that the
front end in `SDL_gpu.c` reads and writes: the three pass in-progress
flags (the `Pass` structs also hold a back-pointer to the command buffer,
which the shallow embedding does not need to duplicate), the two
pipeline-bound flags, and the submitted flag. -/

structure CommandBufferCommonHeader where
  renderPassInProgress : Bool
  computePassInProgress : Bool
  copyPassInProgress : Bool
  graphicsPipelineBound : Bool
  computePipelineBound : Bool
  submitted : Bool
deriving DecidableEq, Repr

/-- Header state right after `SDL_GpuAcquireCommandBuffer` (SDL_gpu.c lines
840-850): every flag is reset to false. -/
def acquiredCommandBufferHeader : CommandBufferCommonHeader :=
  ⟨false, false, false, false, false, false⟩

/-- The disjunction tested by `CHECK_ANY_PASS_IN_PROGRESS` (SDL_gpu.c
lines 43-50). -/
def anyPassInProgress (st : CommandBufferCommonHeader) : Bool :=
  st.renderPassInProgress || st.computePassInProgress || st.copyPassInProgress

/-- Result of one public front-end call: whether a non-sentinel value was
returned (`returnedOk = false` means NULL was returned or the void call
returned early), whether the call was delegated to the back-end's function
table, and the header state after the call. -/
structure CallOutcome where
  returnedOk : Bool
  delegated : Bool
  state : CommandBufferCommonHeader
deriving DecidableEq, Repr

/-- `MAX_COLOR_TARGET_BINDINGS` is defined in `SDL_sysgpu.h`, which is not
among the provided sources; no claim depends on its exact value, only on
the check `colorAttachmentCount > MAX_COLOR_TARGET_BINDINGS` being
performed unconditionally. -/
def MAX_COLOR_TARGET_BINDINGS : Nat := 4

/-- `MAX_COMPUTE_WRITE_TEXTURES`: the assert text in
`SDL_GpuCreateComputePipeline` ("cannot be higher than 8") and the spec pin
this at 8. -/
def MAX_COMPUTE_WRITE_TEXTURES : Nat := 8

/-- `MAX_COMPUTE_WRITE_BUFFERS`: likewise 8. -/
def MAX_COMPUTE_WRITE_BUFFERS : Nat := 8

/-- `SDL_GpuBeginRenderPass` (SDL_gpu.c lines 937-973).  Argument shape is
abstracted to the nullity of the two pointer arguments plus the
attachment count; the body mirrors the C control flow exactly: the
null/shape/limit checks run unconditionally, `CHECK_COMMAND_BUFFER` and
`CHECK_ANY_PASS_IN_PROGRESS` run only under `debugMode`, and on the
delegating path the render in-progress flag is set and a non-NULL pass
pointer is returned. -/
def SDL_GpuBeginRenderPass (debugMode commandBufferIsNull colorAttachmentInfosIsNull : Bool)
    (colorAttachmentCount : Nat) (st : CommandBufferCommonHeader) : CallOutcome :=
  if commandBufferIsNull then ⟨false, false, st⟩
  else if colorAttachmentInfosIsNull ∧ colorAttachmentCount > 0 then ⟨false, false, st⟩
  else if colorAttachmentCount > MAX_COLOR_TARGET_BINDINGS then ⟨false, false, st⟩
  else if debugMode ∧ st.submitted then ⟨false, false, st⟩
  else if debugMode ∧ anyPassInProgress st then ⟨false, false, st⟩
  else ⟨true, true, { st with renderPassInProgress := true }⟩

/-- `SDL_GpuBeginComputePass` (SDL_gpu.c lines 1376-1420): same structure;
the two binding arrays have their own null/shape checks and count limits,
all unconditional; the submitted/pass checks are debug-gated. -/
def SDL_GpuBeginComputePass (debugMode commandBufferIsNull storageTextureBindingsIsNull
    storageBufferBindingsIsNull : Bool) (storageTextureBindingCount storageBufferBindingCount : Nat)
    (st : CommandBufferCommonHeader) : CallOutcome :=
  if commandBufferIsNull then ⟨false, false, st⟩
  else if storageTextureBindingsIsNull ∧ storageTextureBindingCount > 0 then ⟨false, false, st⟩
  else if storageBufferBindingsIsNull ∧ storageBufferBindingCount > 0 then ⟨false, false, st⟩
  else if storageTextureBindingCount > MAX_COMPUTE_WRITE_TEXTURES then ⟨false, false, st⟩
  else if storageBufferBindingCount > MAX_COMPUTE_WRITE_BUFFERS then ⟨false, false, st⟩
  else if debugMode ∧ st.submitted then ⟨false, false, st⟩
  else if debugMode ∧ anyPassInProgress st then ⟨false, false, st⟩
  else ⟨true, true, { st with computePassInProgress := true }⟩

/-- `SDL_GpuBeginCopyPass` (SDL_gpu.c lines 1609-1630). -/
def SDL_GpuBeginCopyPass (debugMode commandBufferIsNull : Bool)
    (st : CommandBufferCommonHeader) : CallOutcome :=
  if commandBufferIsNull then ⟨false, false, st⟩
  else if debugMode ∧ st.submitted then ⟨false, false, st⟩
  else if debugMode ∧ anyPassInProgress st then ⟨false, false, st⟩
  else ⟨true, true, { st with copyPassInProgress := true }⟩

/-- `SDL_GpuEndRenderPass` (SDL_gpu.c lines 1352-1372): `CHECK_RENDERPASS`
only under debug; the delegating path clears the render in-progress flag
and the graphics-pipeline-bound flag. -/
def SDL_GpuEndRenderPass (debugMode renderPassIsNull : Bool)
    (st : CommandBufferCommonHeader) : CallOutcome :=
  if renderPassIsNull then ⟨false, false, st⟩
  else if debugMode ∧ ¬st.renderPassInProgress then ⟨false, false, st⟩
  else ⟨true, true, { st with renderPassInProgress := false, graphicsPipelineBound := false }⟩

/-- `SDL_GpuEndComputePass` (SDL_gpu.c lines 1545-1565). -/
def SDL_GpuEndComputePass (debugMode computePassIsNull : Bool)
    (st : CommandBufferCommonHeader) : CallOutcome :=
  if computePassIsNull then ⟨false, false, st⟩
  else if debugMode ∧ ¬st.computePassInProgress then ⟨false, false, st⟩
  else ⟨true, true, { st with computePassInProgress := false, computePipelineBound := false }⟩

/-- `SDL_GpuEndCopyPass` (SDL_gpu.c lines 1814-1830): clears only the copy
in-progress flag (there is no copy pipeline flag). -/
def SDL_GpuEndCopyPass (debugMode copyPassIsNull : Bool)
    (st : CommandBufferCommonHeader) : CallOutcome :=
  if copyPassIsNull then ⟨false, false, st⟩
  else if debugMode ∧ ¬st.copyPassInProgress then ⟨false, false, st⟩
  else ⟨true, true, { st with copyPassInProgress := false }⟩

/-- `SDL_GpuBindGraphicsPipeline` (SDL_gpu.c lines 975-996).  Note: the C
function performs only the two null checks — there is no debug block, no
`CHECK_COMMAND_BUFFER` and no `CHECK_RENDERPASS` — then delegates and sets
the graphics-pipeline-bound flag.  The `debugMode` parameter is kept for
uniformity with the other entry points and is genuinely unused, as in the
source. -/
def SDL_GpuBindGraphicsPipeline (_debugMode renderPassIsNull graphicsPipelineIsNull : Bool)
    (st : CommandBufferCommonHeader) : CallOutcome :=
  if renderPassIsNull then ⟨false, false, st⟩
  else if graphicsPipelineIsNull then ⟨false, false, st⟩
  else ⟨true, true, { st with graphicsPipelineBound := true }⟩

/-- `SDL_GpuBindComputePipeline` (SDL_gpu.c lines 1422-1447):
`CHECK_COMPUTEPASS` under debug, then delegates and sets the
compute-pipeline-bound flag. -/
def SDL_GpuBindComputePipeline (debugMode computePassIsNull computePipelineIsNull : Bool)
    (st : CommandBufferCommonHeader) : CallOutcome :=
  if computePassIsNull then ⟨false, false, st⟩
  else if computePipelineIsNull then ⟨false, false, st⟩
  else if debugMode ∧ ¬st.computePassInProgress then ⟨false, false, st⟩
  else ⟨true, true, { st with computePipelineBound := true }⟩

/-- `SDL_GpuBindVertexBuffers` (SDL_gpu.c lines 1042-1066): representative
of the render-pass binding calls (`SDL_GpuSetViewport`, `SDL_GpuSetScissor`
and the sampler/storage binds have the same shape): null/shape checks
unconditionally, `CHECK_RENDERPASS` under debug, then delegation with no
header mutation. -/
def SDL_GpuBindVertexBuffers (debugMode renderPassIsNull pBindingsIsNull : Bool)
    (bindingCount : Nat) (st : CommandBufferCommonHeader) : CallOutcome :=
  if renderPassIsNull then ⟨false, false, st⟩
  else if pBindingsIsNull ∧ bindingCount > 0 then ⟨false, false, st⟩
  else if debugMode ∧ ¬st.renderPassInProgress then ⟨false, false, st⟩
  else ⟨true, true, st⟩

/-- `SDL_GpuBindComputeStorageBuffers` (SDL_gpu.c lines 1475-1499):
representative of the compute-pass binding calls. -/
def SDL_GpuBindComputeStorageBuffers (debugMode computePassIsNull storageBuffersIsNull : Bool)
    (bindingCount : Nat) (st : CommandBufferCommonHeader) : CallOutcome :=
  if computePassIsNull then ⟨false, false, st⟩
  else if storageBuffersIsNull ∧ bindingCount > 0 then ⟨false, false, st⟩
  else if debugMode ∧ ¬st.computePassInProgress then ⟨false, false, st⟩
  else ⟨true, true, st⟩

/-- `SDL_GpuDrawPrimitives` (SDL_gpu.c lines 1273-1292): `CHECK_RENDERPASS`
and `CHECK_GRAPHICS_PIPELINE_BOUND` under debug. -/
def SDL_GpuDrawPrimitives (debugMode renderPassIsNull : Bool)
    (st : CommandBufferCommonHeader) : CallOutcome :=
  if renderPassIsNull then ⟨false, false, st⟩
  else if debugMode ∧ ¬st.renderPassInProgress then ⟨false, false, st⟩
  else if debugMode ∧ ¬st.graphicsPipelineBound then ⟨false, false, st⟩
  else ⟨true, true, st⟩

/-- `SDL_GpuDispatchCompute` (SDL_gpu.c lines 1501-1522). -/
def SDL_GpuDispatchCompute (debugMode computePassIsNull : Bool)
    (st : CommandBufferCommonHeader) : CallOutcome :=
  if computePassIsNull then ⟨false, false, st⟩
  else if debugMode ∧ ¬st.computePassInProgress then ⟨false, false, st⟩
  else if debugMode ∧ ¬st.computePipelineBound then ⟨false, false, st⟩
  else ⟨true, true, st⟩

/-- `SDL_GpuPushVertexUniformData` (SDL_gpu.c lines 857-881): null checks
unconditionally, `CHECK_COMMAND_BUFFER` under debug, delegation mutates no
header state. -/
def SDL_GpuPushVertexUniformData (debugMode commandBufferIsNull dataIsNull : Bool)
    (st : CommandBufferCommonHeader) : CallOutcome :=
  if commandBufferIsNull then ⟨false, false, st⟩
  else if dataIsNull then ⟨false, false, st⟩
  else if debugMode ∧ st.submitted then ⟨false, false, st⟩
  else ⟨true, true, st⟩

/-- `SDL_GpuSubmit` (SDL_gpu.c lines 2028-2053): under debug, refuses a
second submission and refuses while a pass is in progress; otherwise sets
the submitted flag and delegates. -/
def SDL_GpuSubmit (debugMode commandBufferIsNull : Bool)
    (st : CommandBufferCommonHeader) : CallOutcome :=
  if commandBufferIsNull then ⟨false, false, st⟩
  else if debugMode ∧ st.submitted then ⟨false, false, st⟩
  else if debugMode ∧ anyPassInProgress st then ⟨false, false, st⟩
  else ⟨true, true, { st with submitted := true }⟩

/-- `SDL_GpuSubmitAndAcquireFence` (SDL_gpu.c lines 2055-2080): identical
checks to `SDL_GpuSubmit`, returns a fence on the delegating path. -/
def SDL_GpuSubmitAndAcquireFence (debugMode commandBufferIsNull : Bool)
    (st : CommandBufferCommonHeader) : CallOutcome :=
  if commandBufferIsNull then ⟨false, false, st⟩
  else if debugMode ∧ st.submitted then ⟨false, false, st⟩
  else if debugMode ∧ anyPassInProgress st then ⟨false, false, st⟩
  else ⟨true, true, { st with submitted := true }⟩

/-- One public entry point of the command-buffer API together with the
argument shape the front end inspects.  Pass- and pipeline-pointer
arguments are taken to be the (non-null) objects embedded in this command
buffer's header, as produced by the corresponding Begin/Create calls. -/
inductive GpuCall where
  | beginRenderPass (colorAttachmentInfosIsNull : Bool) (colorAttachmentCount : Nat)
  | beginComputePass (storageTextureBindingsIsNull storageBufferBindingsIsNull : Bool)
      (storageTextureBindingCount storageBufferBindingCount : Nat)
  | beginCopyPass
  | endRenderPass
  | endComputePass
  | endCopyPass
  | bindGraphicsPipeline (graphicsPipelineIsNull : Bool)
  | bindComputePipeline (computePipelineIsNull : Bool)
  | bindVertexBuffers (pBindingsIsNull : Bool) (bindingCount : Nat)
  | bindComputeStorageBuffers (storageBuffersIsNull : Bool) (bindingCount : Nat)
  | drawPrimitives
  | dispatchCompute
  | pushVertexUniformData (dataIsNull : Bool)
  | submit
  | submitAndAcquireFence
deriving DecidableEq, Repr

/-- Dispatch a public call on a (non-null) command buffer: the front-end
entry points above, with the pass/command-buffer pointers non-null. -/
def step (debugMode : Bool) (c : GpuCall) (st : CommandBufferCommonHeader) : CallOutcome :=
  match c with
  | .beginRenderPass cin cc => SDL_GpuBeginRenderPass debugMode false cin cc st
  | .beginComputePass tn bn tc bc => SDL_GpuBeginComputePass debugMode false tn bn tc bc st
  | .beginCopyPass => SDL_GpuBeginCopyPass debugMode false st
  | .endRenderPass => SDL_GpuEndRenderPass debugMode false st
  | .endComputePass => SDL_GpuEndComputePass debugMode false st
  | .endCopyPass => SDL_GpuEndCopyPass debugMode false st
  | .bindGraphicsPipeline pn => SDL_GpuBindGraphicsPipeline debugMode false pn st
  | .bindComputePipeline pn => SDL_GpuBindComputePipeline debugMode false pn st
  | .bindVertexBuffers bn bc => SDL_GpuBindVertexBuffers debugMode false bn bc st
  | .bindComputeStorageBuffers bn bc => SDL_GpuBindComputeStorageBuffers debugMode false bn bc st
  | .drawPrimitives => SDL_GpuDrawPrimitives debugMode false st
  | .dispatchCompute => SDL_GpuDispatchCompute debugMode false st
  | .pushVertexUniformData dn => SDL_GpuPushVertexUniformData debugMode false dn st
  | .submit => SDL_GpuSubmit debugMode false st
  | .submitAndAcquireFence => SDL_GpuSubmitAndAcquireFence debugMode false st

/-- At most one of the three pass in-progress flags is set. -/
def atMostOnePass (st : CommandBufferCommonHeader) : Bool :=
  !(st.renderPassInProgress && st.computePassInProgress) &&
  !(st.renderPassInProgress && st.copyPassInProgress) &&
  !(st.computePassInProgress && st.copyPassInProgress)

/-! ### Helper lemmas: each entry point, under debug mode, preserves pass
exclusivity -/

theorem atMostOnePass_beginRenderPass (cin : Bool) (cc : Nat)
    (st : CommandBufferCommonHeader) (h : atMostOnePass st = true) :
    atMostOnePass (SDL_GpuBeginRenderPass true false cin cc st).state = true := by
  unfold SDL_GpuBeginRenderPass
  split_ifs <;> simp_all [atMostOnePass, anyPassInProgress]

theorem atMostOnePass_beginComputePass (tn bn : Bool) (tc bc : Nat)
    (st : CommandBufferCommonHeader) (h : atMostOnePass st = true) :
    atMostOnePass (SDL_GpuBeginComputePass true false tn bn tc bc st).state = true := by
  unfold SDL_GpuBeginComputePass
  split_ifs <;> simp_all [atMostOnePass, anyPassInProgress]

theorem atMostOnePass_beginCopyPass (st : CommandBufferCommonHeader)
    (h : atMostOnePass st = true) :
    atMostOnePass (SDL_GpuBeginCopyPass true false st).state = true := by
  unfold SDL_GpuBeginCopyPass
  split_ifs <;> simp_all [atMostOnePass, anyPassInProgress]

theorem atMostOnePass_endRenderPass (st : CommandBufferCommonHeader)
    (h : atMostOnePass st = true) :
    atMostOnePass (SDL_GpuEndRenderPass true false st).state = true := by
  unfold SDL_GpuEndRenderPass
  split_ifs <;> simp_all [atMostOnePass]

theorem atMostOnePass_endComputePass (st : CommandBufferCommonHeader)
    (h : atMostOnePass st = true) :
    atMostOnePass (SDL_GpuEndComputePass true false st).state = true := by
  unfold SDL_GpuEndComputePass
  split_ifs <;> simp_all [atMostOnePass]

theorem atMostOnePass_endCopyPass (st : CommandBufferCommonHeader)
    (h : atMostOnePass st = true) :
    atMostOnePass (SDL_GpuEndCopyPass true false st).state = true := by
  unfold SDL_GpuEndCopyPass
  split_ifs <;> simp_all [atMostOnePass]

theorem atMostOnePass_bindGraphicsPipeline (d pn : Bool) (st : CommandBufferCommonHeader)
    (h : atMostOnePass st = true) :
    atMostOnePass (SDL_GpuBindGraphicsPipeline d false pn st).state = true := by
  unfold SDL_GpuBindGraphicsPipeline
  split_ifs <;> simp_all [atMostOnePass]

theorem atMostOnePass_bindComputePipeline (pn : Bool) (st : CommandBufferCommonHeader)
    (h : atMostOnePass st = true) :
    atMostOnePass (SDL_GpuBindComputePipeline true false pn st).state = true := by
  unfold SDL_GpuBindComputePipeline
  split_ifs <;> simp_all [atMostOnePass]

theorem atMostOnePass_bindVertexBuffers (bn : Bool) (bc : Nat)
    (st : CommandBufferCommonHeader) (h : atMostOnePass st = true) :
    atMostOnePass (SDL_GpuBindVertexBuffers true false bn bc st).state = true := by
  unfold SDL_GpuBindVertexBuffers
  split_ifs <;> simp_all [atMostOnePass]

theorem atMostOnePass_bindComputeStorageBuffers (bn : Bool) (bc : Nat)
    (st : CommandBufferCommonHeader) (h : atMostOnePass st = true) :
    atMostOnePass (SDL_GpuBindComputeStorageBuffers true false bn bc st).state = true := by
  unfold SDL_GpuBindComputeStorageBuffers
  split_ifs <;> simp_all [atMostOnePass]

theorem atMostOnePass_drawPrimitives (st : CommandBufferCommonHeader)
    (h : atMostOnePass st = true) :
    atMostOnePass (SDL_GpuDrawPrimitives true false st).state = true := by
  unfold SDL_GpuDrawPrimitives
  split_ifs <;> simp_all [atMostOnePass]

theorem atMostOnePass_dispatchCompute (st : CommandBufferCommonHeader)
    (h : atMostOnePass st = true) :
    atMostOnePass (SDL_GpuDispatchCompute true false st).state = true := by
  unfold SDL_GpuDispatchCompute
  split_ifs <;> simp_all [atMostOnePass]

theorem atMostOnePass_pushVertexUniformData (dn : Bool) (st : CommandBufferCommonHeader)
    (h : atMostOnePass st = true) :
    atMostOnePass (SDL_GpuPushVertexUniformData true false dn st).state = true := by
  unfold SDL_GpuPushVertexUniformData
  split_ifs <;> simp_all [atMostOnePass]

theorem atMostOnePass_submit (st : CommandBufferCommonHeader)
    (h : atMostOnePass st = true) :
    atMostOnePass (SDL_GpuSubmit true false st).state = true := by
  unfold SDL_GpuSubmit
  split_ifs <;> simp_all [atMostOnePass]

theorem atMostOnePass_submitAndAcquireFence (st : CommandBufferCommonHeader)
    (h : atMostOnePass st = true) :
    atMostOnePass (SDL_GpuSubmitAndAcquireFence true false st).state = true := by
  unfold SDL_GpuSubmitAndAcquireFence
  split_ifs <;> simp_all [atMostOnePass]

theorem atMostOnePass_step (c : GpuCall) (st : CommandBufferCommonHeader)
    (h : atMostOnePass st = true) :
    atMostOnePass (step true c st).state = true := by
  cases c with
  | beginRenderPass cin cc => exact atMostOnePass_beginRenderPass cin cc st h
  | beginComputePass tn bn tc bc => exact atMostOnePass_beginComputePass tn bn tc bc st h
  | beginCopyPass => exact atMostOnePass_beginCopyPass st h
  | endRenderPass => exact atMostOnePass_endRenderPass st h
  | endComputePass => exact atMostOnePass_endComputePass st h
  | endCopyPass => exact atMostOnePass_endCopyPass st h
  | bindGraphicsPipeline pn => exact atMostOnePass_bindGraphicsPipeline true pn st h
  | bindComputePipeline pn => exact atMostOnePass_bindComputePipeline pn st h
  | bindVertexBuffers bn bc => exact atMostOnePass_bindVertexBuffers bn bc st h
  | bindComputeStorageBuffers bn bc => exact atMostOnePass_bindComputeStorageBuffers bn bc st h
  | drawPrimitives => exact atMostOnePass_drawPrimitives st h
  | dispatchCompute => exact atMostOnePass_dispatchCompute st h
  | pushVertexUniformData dn => exact atMostOnePass_pushVertexUniformData dn st h
  | submit => exact atMostOnePass_submit st h
  | submitAndAcquireFence => exact atMostOnePass_submitAndAcquireFence st h

theorem beginRenderPass_refuses (st : CommandBufferCommonHeader) (cin : Bool) (cc : Nat)
    (h : anyPassInProgress st = true) :
    SDL_GpuBeginRenderPass true false cin cc st = ⟨false, false, st⟩ := by
  unfold SDL_GpuBeginRenderPass
  split_ifs <;> simp_all

theorem beginComputePass_refuses (st : CommandBufferCommonHeader) (tn bn : Bool) (tc bc : Nat)
    (h : anyPassInProgress st = true) :
    SDL_GpuBeginComputePass true false tn bn tc bc st = ⟨false, false, st⟩ := by
  unfold SDL_GpuBeginComputePass
  split_ifs <;> simp_all

theorem beginCopyPass_refuses (st : CommandBufferCommonHeader)
    (h : anyPassInProgress st = true) :
    SDL_GpuBeginCopyPass true false st = ⟨false, false, st⟩ := by
  unfold SDL_GpuBeginCopyPass
  split_ifs <;> simp_all

theorem beginRenderPass_success_state (st : CommandBufferCommonHeader) (cin : Bool) (cc : Nat)
    (h : (SDL_GpuBeginRenderPass true false cin cc st).returnedOk = true) :
    (SDL_GpuBeginRenderPass true false cin cc st).state =
      { st with renderPassInProgress := true } := by
  unfold SDL_GpuBeginRenderPass at *
  split_ifs at h ⊢ <;> simp_all

theorem beginComputePass_success_state (st : CommandBufferCommonHeader) (tn bn : Bool)
    (tc bc : Nat)
    (h : (SDL_GpuBeginComputePass true false tn bn tc bc st).returnedOk = true) :
    (SDL_GpuBeginComputePass true false tn bn tc bc st).state =
      { st with computePassInProgress := true } := by
  unfold SDL_GpuBeginComputePass at *
  split_ifs at h ⊢ <;> simp_all

theorem beginCopyPass_success_state (st : CommandBufferCommonHeader)
    (h : (SDL_GpuBeginCopyPass true false st).returnedOk = true) :
    (SDL_GpuBeginCopyPass true false st).state =
      { st with copyPassInProgress := true } := by
  unfold SDL_GpuBeginCopyPass at *
  split_ifs at h ⊢ <;> simp_all

theorem endRenderPass_success_state (st : CommandBufferCommonHeader)
    (h : (SDL_GpuEndRenderPass true false st).returnedOk = true) :
    (SDL_GpuEndRenderPass true false st).state =
      { st with renderPassInProgress := false, graphicsPipelineBound := false } := by
  unfold SDL_GpuEndRenderPass at *
  split_ifs at h ⊢ <;> simp_all

theorem endComputePass_success_state (st : CommandBufferCommonHeader)
    (h : (SDL_GpuEndComputePass true false st).returnedOk = true) :
    (SDL_GpuEndComputePass true false st).state =
      { st with computePassInProgress := false, computePipelineBound := false } := by
  unfold SDL_GpuEndComputePass at *
  split_ifs at h ⊢ <;> simp_all

theorem endCopyPass_success_state (st : CommandBufferCommonHeader)
    (h : (SDL_GpuEndCopyPass true false st).returnedOk = true) :
    (SDL_GpuEndCopyPass true false st).state =
      { st with copyPassInProgress := false } := by
  unfold SDL_GpuEndCopyPass at *
  split_ifs at h ⊢ <;> simp_all

theorem step_inert_of_submitted (c : GpuCall) (st : CommandBufferCommonHeader)
    (hnot : ∀ pn, c ≠ GpuCall.bindGraphicsPipeline pn)
    (hs : st.submitted = true) (hnp : anyPassInProgress st = false) :
    step true c st = ⟨false, false, st⟩ := by
  simp only [anyPassInProgress, Bool.or_eq_false_iff] at hnp
  obtain ⟨⟨hr, hc⟩, hk⟩ := hnp
  cases c with
  | beginRenderPass cin cc =>
      show SDL_GpuBeginRenderPass true false cin cc st = _
      unfold SDL_GpuBeginRenderPass
      split_ifs <;> simp_all
  | beginComputePass tn bn tc bc =>
      show SDL_GpuBeginComputePass true false tn bn tc bc st = _
      unfold SDL_GpuBeginComputePass
      split_ifs <;> simp_all
  | beginCopyPass =>
      show SDL_GpuBeginCopyPass true false st = _
      unfold SDL_GpuBeginCopyPass
      split_ifs <;> simp_all
  | endRenderPass =>
      show SDL_GpuEndRenderPass true false st = _
      unfold SDL_GpuEndRenderPass
      split_ifs <;> simp_all
  | endComputePass =>
      show SDL_GpuEndComputePass true false st = _
      unfold SDL_GpuEndComputePass
      split_ifs <;> simp_all
  | endCopyPass =>
      show SDL_GpuEndCopyPass true false st = _
      unfold SDL_GpuEndCopyPass
      split_ifs <;> simp_all
  | bindGraphicsPipeline pn => exact absurd rfl (hnot pn)
  | bindComputePipeline pn =>
      show SDL_GpuBindComputePipeline true false pn st = _
      unfold SDL_GpuBindComputePipeline
      split_ifs <;> simp_all
  | bindVertexBuffers bn bc =>
      show SDL_GpuBindVertexBuffers true false bn bc st = _
      unfold SDL_GpuBindVertexBuffers
      split_ifs <;> simp_all
  | bindComputeStorageBuffers bn bc =>
      show SDL_GpuBindComputeStorageBuffers true false bn bc st = _
      unfold SDL_GpuBindComputeStorageBuffers
      split_ifs <;> simp_all
  | drawPrimitives =>
      show SDL_GpuDrawPrimitives true false st = _
      unfold SDL_GpuDrawPrimitives
      split_ifs <;> simp_all
  | dispatchCompute =>
      show SDL_GpuDispatchCompute true false st = _
      unfold SDL_GpuDispatchCompute
      split_ifs <;> simp_all
  | pushVertexUniformData dn =>
      show SDL_GpuPushVertexUniformData true false dn st = _
      unfold SDL_GpuPushVertexUniformData
      split_ifs <;> simp_all
  | submit =>
      show SDL_GpuSubmit true false st = _
      unfold SDL_GpuSubmit
      split_ifs <;> simp_all
  | submitAndAcquireFence =>
      show SDL_GpuSubmitAndAcquireFence true false st = _
      unfold SDL_GpuSubmitAndAcquireFence
      split_ifs <;> simp_all

theorem bindGraphicsPipeline_always_delegates (st : CommandBufferCommonHeader) :
    step true (GpuCall.bindGraphicsPipeline false) st =
      ⟨true, true, { st with graphicsPipelineBound := true }⟩ := by
  show SDL_GpuBindGraphicsPipeline true false false st = _
  unfold SDL_GpuBindGraphicsPipeline
  simp

/-! ### Claim theorems for the command-buffer state machine -/

/-- C1 (amended): when the device's `debugMode` is true, at most one of the
render/compute/copy pass-in-progress flags is ever set: every public entry
point preserves pass exclusivity, each `Begin*Pass` call refuses (returns
NULL, mutating nothing) when any pass is already in progress, each
`Begin*Pass` call that succeeds sets only its own flag, and each
`End*Pass` call that proceeds clears its own pass flag (plus the
corresponding pipeline-bound flag), leaving the other pass flags
untouched.  (The claim as stated — without the debug-mode qualifier — is
refuted by `C1_counterexample`: without `debugMode`,
`CHECK_ANY_PASS_IN_PROGRESS` is skipped and a second flag can be set.) -/
theorem C1_pass_exclusivity_under_debug :
    (∀ (c : GpuCall) (st : CommandBufferCommonHeader),
        atMostOnePass st = true → atMostOnePass (step true c st).state = true) ∧
    (∀ (st : CommandBufferCommonHeader) (cin : Bool) (cc : Nat),
        anyPassInProgress st = true →
        SDL_GpuBeginRenderPass true false cin cc st = ⟨false, false, st⟩) ∧
    (∀ (st : CommandBufferCommonHeader) (tn bn : Bool) (tc bc : Nat),
        anyPassInProgress st = true →
        SDL_GpuBeginComputePass true false tn bn tc bc st = ⟨false, false, st⟩) ∧
    (∀ (st : CommandBufferCommonHeader),
        anyPassInProgress st = true →
        SDL_GpuBeginCopyPass true false st = ⟨false, false, st⟩) ∧
    (∀ (st : CommandBufferCommonHeader) (cin : Bool) (cc : Nat),
        (SDL_GpuBeginRenderPass true false cin cc st).returnedOk = true →
        (SDL_GpuBeginRenderPass true false cin cc st).state =
          { st with renderPassInProgress := true }) ∧
    (∀ (st : CommandBufferCommonHeader) (tn bn : Bool) (tc bc : Nat),
        (SDL_GpuBeginComputePass true false tn bn tc bc st).returnedOk = true →
        (SDL_GpuBeginComputePass true false tn bn tc bc st).state =
          { st with computePassInProgress := true }) ∧
    (∀ (st : CommandBufferCommonHeader),
        (SDL_GpuBeginCopyPass true false st).returnedOk = true →
        (SDL_GpuBeginCopyPass true false st).state =
          { st with copyPassInProgress := true }) ∧
    (∀ (st : CommandBufferCommonHeader),
        (SDL_GpuEndRenderPass true false st).returnedOk = true →
        (SDL_GpuEndRenderPass true false st).state =
          { st with renderPassInProgress := false, graphicsPipelineBound := false }) ∧
    (∀ (st : CommandBufferCommonHeader),
        (SDL_GpuEndComputePass true false st).returnedOk = true →
        (SDL_GpuEndComputePass true false st).state =
          { st with computePassInProgress := false, computePipelineBound := false }) ∧
    (∀ (st : CommandBufferCommonHeader),
        (SDL_GpuEndCopyPass true false st).returnedOk = true →
        (SDL_GpuEndCopyPass true false st).state =
          { st with copyPassInProgress := false }) :=
  ⟨atMostOnePass_step, beginRenderPass_refuses, beginComputePass_refuses, beginCopyPass_refuses,
   beginRenderPass_success_state, beginComputePass_success_state, beginCopyPass_success_state,
   endRenderPass_success_state, endComputePass_success_state, endCopyPass_success_state⟩

/-- Witness for `C1_pass_exclusivity_under_debug` at concrete inputs. -/
theorem C1_pass_exclusivity_under_debug_witness :
    atMostOnePass (step true GpuCall.beginCopyPass acquiredCommandBufferHeader).state = true ∧
    SDL_GpuBeginRenderPass true false false 1 ⟨true, false, false, false, false, false⟩ =
      ⟨false, false, ⟨true, false, false, false, false, false⟩⟩ ∧
    (SDL_GpuBeginRenderPass true false false 0 acquiredCommandBufferHeader).state =
      { acquiredCommandBufferHeader with renderPassInProgress := true } ∧
    (SDL_GpuEndRenderPass true false ⟨true, false, false, true, false, false⟩).state =
      { (⟨true, false, false, true, false, false⟩ : CommandBufferCommonHeader) with
          renderPassInProgress := false, graphicsPipelineBound := false } :=
  ⟨C1_pass_exclusivity_under_debug.1 GpuCall.beginCopyPass acquiredCommandBufferHeader (by decide),
   C1_pass_exclusivity_under_debug.2.1 ⟨true, false, false, false, false, false⟩ false 1 (by decide),
   C1_pass_exclusivity_under_debug.2.2.2.2.1 acquiredCommandBufferHeader false 0 (by decide),
   C1_pass_exclusivity_under_debug.2.2.2.2.2.2.2.1 ⟨true, false, false, true, false, false⟩
     (by decide)⟩

/-- C1, counterexample to the claim as stated: on a device with
`debugMode = false`, `SDL_GpuBeginRenderPass` followed by
`SDL_GpuBeginComputePass` on the same freshly acquired command buffer does
NOT refuse the second begin — it returns a non-NULL pass and leaves both
the render and compute pass-in-progress flags set. -/
theorem C1_counterexample :
    (SDL_GpuBeginComputePass false false false false 0 0
        (SDL_GpuBeginRenderPass false false false 1 acquiredCommandBufferHeader).state).returnedOk
      = true ∧
    (SDL_GpuBeginComputePass false false false false 0 0
        (SDL_GpuBeginRenderPass false false false 1
          acquiredCommandBufferHeader).state).state.renderPassInProgress = true ∧
    (SDL_GpuBeginComputePass false false false false 0 0
        (SDL_GpuBeginRenderPass false false false 1
          acquiredCommandBufferHeader).state).state.computePassInProgress = true ∧
    atMostOnePass (SDL_GpuBeginComputePass false false false false 0 0
        (SDL_GpuBeginRenderPass false false false 1
          acquiredCommandBufferHeader).state).state = false := by
  decide

/-- C2 (amended): on a debug-mode device, once a command buffer's
submitted flag is true (in which case no pass is in progress), every
subsequent begin-pass, end-pass, draw, dispatch, push-uniform and bind
call EXCEPT `SDL_GpuBindGraphicsPipeline` returns a sentinel without
delegating and mutates no command-buffer state.
`SDL_GpuBindGraphicsPipeline` performs no submitted check at all (SDL_gpu.c
lines 975-996 contain no debug block): with non-null arguments it always
delegates and sets the graphics-pipeline-bound flag, also on a submitted
buffer.  Without debug mode the submitted flag is not checked by any of
these calls. -/
theorem C2_submitted_buffer_inert :
    (∀ (c : GpuCall) (st : CommandBufferCommonHeader),
        (∀ pn, c ≠ GpuCall.bindGraphicsPipeline pn) →
        st.submitted = true → anyPassInProgress st = false →
        step true c st = ⟨false, false, st⟩) ∧
    (∀ (st : CommandBufferCommonHeader),
        step true (GpuCall.bindGraphicsPipeline false) st =
          ⟨true, true, { st with graphicsPipelineBound := true }⟩) :=
  ⟨step_inert_of_submitted, bindGraphicsPipeline_always_delegates⟩

/-- Witness for `C2_submitted_buffer_inert` at a concrete submitted
buffer. -/
theorem C2_submitted_buffer_inert_witness :
    step true GpuCall.drawPrimitives ⟨false, false, false, false, false, true⟩ =
      ⟨false, false, ⟨false, false, false, false, false, true⟩⟩ ∧
    step true (GpuCall.bindGraphicsPipeline false) ⟨false, false, false, false, false, true⟩ =
      ⟨true, true, ⟨false, false, false, true, false, true⟩⟩ :=
  ⟨C2_submitted_buffer_inert.1 GpuCall.drawPrimitives ⟨false, false, false, false, false, true⟩
      (by intro pn h; cases h) (by decide) (by decide),
   C2_submitted_buffer_inert.2 ⟨false, false, false, false, false, true⟩⟩

/-- C2, counterexample to the claim as stated: on a submitted command
buffer (debug mode on, all other flags clear), `SDL_GpuBindGraphicsPipeline`
with non-null arguments delegates to the back-end and mutates the command
buffer (it sets the graphics-pipeline-bound flag) instead of returning a
sentinel and mutating nothing. -/
theorem C2_counterexample :
    (⟨false, false, false, false, false, true⟩ : CommandBufferCommonHeader).submitted = true ∧
    (SDL_GpuBindGraphicsPipeline true false false
        ⟨false, false, false, false, false, true⟩).delegated = true ∧
    (SDL_GpuBindGraphicsPipeline true false false
        ⟨false, false, false, false, false, true⟩).state ≠
      ⟨false, false, false, false, false, true⟩ := by
  decide

/-- C3 (amended): in `SDL_GpuBeginRenderPass` and `SDL_GpuBeginComputePass`,
the null-pointer, count/pointer-shape and binding-count limit checks run
unconditionally, BEFORE the `debugMode` test; only the command-buffer
state checks (`CHECK_COMMAND_BUFFER`, `CHECK_ANY_PASS_IN_PROGRESS`) are
gated on `debugMode`.  Hence with `debugMode = false` and arguments
passing the unconditional checks the call is always delegated, whatever
the command-buffer state; with a failing argument check the call is
refused without delegation even when `debugMode = false`. -/
theorem C3_arg_checks_unconditional :
    (∀ (debugMode : Bool) (cc : Nat) (st : CommandBufferCommonHeader), cc > 0 →
        SDL_GpuBeginRenderPass debugMode false true cc st = ⟨false, false, st⟩) ∧
    (∀ (debugMode cin : Bool) (cc : Nat) (st : CommandBufferCommonHeader),
        cc > MAX_COLOR_TARGET_BINDINGS →
        SDL_GpuBeginRenderPass debugMode false cin cc st = ⟨false, false, st⟩) ∧
    (∀ (cin : Bool) (cc : Nat) (st : CommandBufferCommonHeader),
        ¬(cin = true ∧ cc > 0) → cc ≤ MAX_COLOR_TARGET_BINDINGS →
        SDL_GpuBeginRenderPass false false cin cc st =
          ⟨true, true, { st with renderPassInProgress := true }⟩) ∧
    (∀ (debugMode bn : Bool) (tc bc : Nat) (st : CommandBufferCommonHeader), tc > 0 →
        SDL_GpuBeginComputePass debugMode false true bn tc bc st = ⟨false, false, st⟩) ∧
    (∀ (debugMode tn bn : Bool) (tc bc : Nat) (st : CommandBufferCommonHeader),
        tc > MAX_COMPUTE_WRITE_TEXTURES →
        SDL_GpuBeginComputePass debugMode false tn bn tc bc st = ⟨false, false, st⟩) ∧
    (∀ (tn bn : Bool) (tc bc : Nat) (st : CommandBufferCommonHeader),
        ¬(tn = true ∧ tc > 0) → ¬(bn = true ∧ bc > 0) →
        tc ≤ MAX_COMPUTE_WRITE_TEXTURES → bc ≤ MAX_COMPUTE_WRITE_BUFFERS →
        SDL_GpuBeginComputePass false false tn bn tc bc st =
          ⟨true, true, { st with computePassInProgress := true }⟩) := by
  refine ⟨?_, ?_, ?_, ?_, ?_, ?_⟩
  · intro d cc st h
    unfold SDL_GpuBeginRenderPass
    split_ifs <;> simp_all
  · intro d cin cc st h
    unfold SDL_GpuBeginRenderPass
    split_ifs <;> simp_all
  · intro cin cc st h1 h2
    unfold SDL_GpuBeginRenderPass
    split_ifs <;> simp_all <;> omega
  · intro d bn tc bc st h
    unfold SDL_GpuBeginComputePass
    split_ifs <;> simp_all
  · intro d tn bn tc bc st h
    unfold SDL_GpuBeginComputePass
    split_ifs <;> simp_all
  · intro tn bn tc bc st h1 h2 h3 h4
    unfold SDL_GpuBeginComputePass
    split_ifs <;> simp_all <;> omega

/-- Witness for `C3_arg_checks_unconditional` at concrete inputs. -/
theorem C3_arg_checks_unconditional_witness :
    SDL_GpuBeginRenderPass true false true 1 acquiredCommandBufferHeader =
      ⟨false, false, acquiredCommandBufferHeader⟩ ∧
    SDL_GpuBeginRenderPass false false false 1
        ⟨false, false, false, false, false, true⟩ =
      ⟨true, true, ⟨true, false, false, false, false, true⟩⟩ ∧
    SDL_GpuBeginComputePass false false false false 1 1
        acquiredCommandBufferHeader =
      ⟨true, true, ⟨false, true, false, false, false, false⟩⟩ :=
  ⟨C3_arg_checks_unconditional.1 true 1 acquiredCommandBufferHeader (by decide),
   C3_arg_checks_unconditional.2.2.1 false 1 ⟨false, false, false, false, false, true⟩
     (by decide) (by decide),
   C3_arg_checks_unconditional.2.2.2.2.2 false false 1 1 acquiredCommandBufferHeader
     (by decide) (by decide) (by decide) (by decide)⟩

/-- C3, counterexample to the claim as stated: with `debugMode = false`,
`SDL_GpuBeginRenderPass` called with a NULL `colorAttachmentInfos` pointer
and `colorAttachmentCount = 1` is NOT delegated — the null/shape argument
check runs and returns NULL even though debug mode is off. -/
theorem C3_counterexample :
    (SDL_GpuBeginRenderPass false false true 1 acquiredCommandBufferHeader).delegated = false ∧
    (SDL_GpuBeginRenderPass false false true 1 acquiredCommandBufferHeader).returnedOk = false := by
  decide

/-! ## Depth-format fallback in `SDL_GpuCreateGraphicsPipeline`
(SDL_gpu.c lines 378-430) -/

/-- The texture formats relevant to the depth-stencil fallback switch; the
two color formats stand in for every non-depth enumerant (they all take
the switch's `default` arm). -/
inductive SDL_GpuTextureFormat where
  | R8G8B8A8
  | B8G8R8A8
  | D16_UNORM
  | D24_UNORM
  | D32_SFLOAT
  | D24_UNORM_S8_UINT
  | D32_SFLOAT_S8_UINT
deriving DecidableEq, Repr

/-- The `switch (depthStencilFormat)` of SDL_gpu.c lines 400-417 choosing
`newFormat`. -/
def depthFormatFallback : SDL_GpuTextureFormat → SDL_GpuTextureFormat
  | .D24_UNORM => .D32_SFLOAT
  | .D32_SFLOAT => .D24_UNORM
  | .D24_UNORM_S8_UINT => .D32_SFLOAT_S8_UINT
  | .D32_SFLOAT_S8_UINT => .D24_UNORM_S8_UINT
  | _ => .D16_UNORM

/-- The `attachmentInfo` fields of `SDL_GpuGraphicsPipelineCreateInfo` that
`SDL_GpuCreateGraphicsPipeline` reads and writes. -/
structure GraphicsPipelineAttachmentInfo where
  hasDepthStencilAttachment : Bool
  depthStencilFormat : SDL_GpuTextureFormat
deriving DecidableEq, Repr

/-- `SDL_GpuCreateGraphicsPipeline` (SDL_gpu.c lines 378-430), restricted
to its effect on the caller's create-info record: when a depth-stencil
attachment is requested and `device->SupportsTextureFormat` (modelled as
the function argument) rejects the format for 2D depth-stencil use, the
function overwrites `attachmentInfo.depthStencilFormat` in place with the
paired fallback before delegating; otherwise it leaves the record
untouched.  The returned value is the record as the caller (and the
delegated back-end) sees it after the call. -/
def SDL_GpuCreateGraphicsPipeline
    (supportsDepthStencilFormat : SDL_GpuTextureFormat → Bool)
    (attachmentInfo : GraphicsPipelineAttachmentInfo) : GraphicsPipelineAttachmentInfo :=
  if attachmentInfo.hasDepthStencilAttachment ∧
      ¬supportsDepthStencilFormat attachmentInfo.depthStencilFormat then
    { attachmentInfo with
        depthStencilFormat := depthFormatFallback attachmentInfo.depthStencilFormat }
  else
    attachmentInfo

/-- C10: `SDL_GpuCreateGraphicsPipeline` overwrites the caller's
`attachmentInfo.depthStencilFormat` in place with the paired fallback
(D24_UNORM ↔ D32_SFLOAT, D24_UNORM_S8_UINT ↔ D32_SFLOAT_S8_UINT,
otherwise D16_UNORM) exactly when a depth-stencil attachment is requested
and its format is unsupported; in every other case the create-info is left
unchanged. -/
theorem C10_createGraphicsPipeline_mutates_createinfo :
    (∀ (supports : SDL_GpuTextureFormat → Bool) (info : GraphicsPipelineAttachmentInfo),
        info.hasDepthStencilAttachment = true →
        supports info.depthStencilFormat = false →
        SDL_GpuCreateGraphicsPipeline supports info =
          { info with depthStencilFormat := depthFormatFallback info.depthStencilFormat }) ∧
    (∀ (supports : SDL_GpuTextureFormat → Bool) (info : GraphicsPipelineAttachmentInfo),
        info.hasDepthStencilAttachment = false ∨ supports info.depthStencilFormat = true →
        SDL_GpuCreateGraphicsPipeline supports info = info) ∧
    depthFormatFallback .D24_UNORM = .D32_SFLOAT ∧
    depthFormatFallback .D32_SFLOAT = .D24_UNORM ∧
    depthFormatFallback .D24_UNORM_S8_UINT = .D32_SFLOAT_S8_UINT ∧
    depthFormatFallback .D32_SFLOAT_S8_UINT = .D24_UNORM_S8_UINT ∧
    (∀ f : SDL_GpuTextureFormat,
        f ≠ .D24_UNORM → f ≠ .D32_SFLOAT → f ≠ .D24_UNORM_S8_UINT → f ≠ .D32_SFLOAT_S8_UINT →
        depthFormatFallback f = .D16_UNORM) := by
  refine ⟨?_, ?_, rfl, rfl, rfl, rfl, ?_⟩
  · intro supports info h1 h2
    unfold SDL_GpuCreateGraphicsPipeline
    split_ifs <;> simp_all
  · intro supports info h
    unfold SDL_GpuCreateGraphicsPipeline
    split_ifs <;> simp_all
  · intro f h1 h2 h3 h4
    cases f <;> simp_all [depthFormatFallback]

/-- Witness for `C10_createGraphicsPipeline_mutates_createinfo`. -/
theorem C10_createGraphicsPipeline_mutates_createinfo_witness :
    SDL_GpuCreateGraphicsPipeline (fun _ => false) ⟨true, .D24_UNORM⟩ =
      ⟨true, .D32_SFLOAT⟩ ∧
    SDL_GpuCreateGraphicsPipeline (fun _ => true) ⟨true, .D24_UNORM⟩ =
      ⟨true, .D24_UNORM⟩ ∧
    depthFormatFallback .R8G8B8A8 = .D16_UNORM :=
  ⟨C10_createGraphicsPipeline_mutates_createinfo.1 (fun _ => false) ⟨true, .D24_UNORM⟩ rfl rfl,
   C10_createGraphicsPipeline_mutates_createinfo.2.1 (fun _ => true) ⟨true, .D24_UNORM⟩
     (Or.inr rfl),
   C10_createGraphicsPipeline_mutates_createinfo.2.2.2.2.2.2 .R8G8B8A8
     (by decide) (by decide) (by decide) (by decide)⟩

/-! ## Driver registry and device construction (SDL_gpu.c lines 103-247) -/

/-- One entry of the `backends[]` registry (`SDL_GpuBootstrap`): display
name, supported shader-format bitmask, back-end identifier, and the
outcomes of its `PrepareDriver` probe and `CreateDevice` constructor. -/
structure SDL_GpuBootstrap where
  name : String
  shaderFormats : Nat
  backendflag : Nat
  prepareOk : Bool
  createOk : Bool
deriving DecidableEq, Repr

/-- `SDL_strcasecmp(a, b) == 0`. -/
def strcaseeq (a b : String) : Bool := a.toLower == b.toLower

/-- `SDL_GpuSelectBackend` (SDL_gpu.c lines 123-152).  With a driver name
supplied, the first backend whose name matches case-insensitively, whose
`shaderFormats` overlap the requested `formatFlags`, and whose probe
succeeds is selected.  Without a name, the first backend whose probe
succeeds is selected — the format overlap is NOT checked on this path, as
in the source. -/
def SDL_GpuSelectBackend (backends : List SDL_GpuBootstrap) (gpudriver : Option String)
    (formatFlags : Nat) : Option Nat :=
  match gpudriver with
  | some n =>
      (backends.find? (fun b =>
        strcaseeq n b.name && (b.shaderFormats &&& formatFlags != 0) && b.prepareOk)).map
        (fun b => b.backendflag)
  | none =>
      (backends.find? (fun b => b.prepareOk)).map (fun b => b.backendflag)

/-- The three fields `SDL_GpuCreateDeviceWithProperties` stores on the
returned device (SDL_gpu.c lines 238-240). -/
structure SDL_GpuDevice where
  backend : Nat
  shaderFormats : Nat
  debugMode : Bool
deriving DecidableEq, Repr

/-- `SDL_GpuCreateDeviceWithProperties` (SDL_gpu.c lines 188-247), after
property unpacking: select a backend, then walk the registry for an entry
with the selected flag whose `CreateDevice` succeeds, and store on the
device the backend flag, the backend's `shaderFormats` field, and the
debug flag — exactly the three assignments of lines 238-240. -/
def SDL_GpuCreateDeviceWithProperties (backends : List SDL_GpuBootstrap)
    (gpudriver : Option String) (formatFlags : Nat) (debugMode : Bool) :
    Option SDL_GpuDevice :=
  match SDL_GpuSelectBackend backends gpudriver formatFlags with
  | none => none
  | some flag =>
      (backends.find? (fun b => b.backendflag == flag && b.createOk)).map
        (fun b => ⟨b.backendflag, b.shaderFormats, debugMode⟩)

/-- C7 (amended): every successfully constructed device stores the
selected back-end's identifier, that back-end's FULL advertised
shader-format set — not the intersection with the requested flags — and
the debug flag. -/
theorem C7_device_stores_backend_formats_debug (backends : List SDL_GpuBootstrap)
    (gpudriver : Option String) (formatFlags : Nat) (debugMode : Bool) (d : SDL_GpuDevice)
    (h : SDL_GpuCreateDeviceWithProperties backends gpudriver formatFlags debugMode = some d) :
    ∃ b ∈ backends,
      SDL_GpuSelectBackend backends gpudriver formatFlags = some b.backendflag ∧
      b.createOk = true ∧
      d.backend = b.backendflag ∧
      d.shaderFormats = b.shaderFormats ∧
      d.debugMode = debugMode := by
  unfold SDL_GpuCreateDeviceWithProperties at h
  cases hsel : SDL_GpuSelectBackend backends gpudriver formatFlags with
  | none => rw [hsel] at h; cases h
  | some flag =>
      rw [hsel] at h
      dsimp only at h
      cases hfind : backends.find? (fun b => b.backendflag == flag && b.createOk) with
      | none => rw [hfind] at h; cases h
      | some b =>
          rw [hfind] at h
          simp only [Option.map_some', Option.some.injEq] at h
          have hmem : b ∈ backends := List.mem_of_find?_eq_some hfind
          have hp := List.find?_some hfind
          simp only [Bool.and_eq_true, beq_iff_eq] at hp
          subst h
          exact ⟨b, hmem, by rw [hp.1], hp.2, rfl, rfl, rfl⟩

/-- Witness for `C7_device_stores_backend_formats_debug` at a concrete
one-entry registry. -/
theorem C7_device_stores_backend_formats_debug_witness :
    ∃ b ∈ [(⟨"vulkan", 3, 7, true, true⟩ : SDL_GpuBootstrap)],
      SDL_GpuSelectBackend [⟨"vulkan", 3, 7, true, true⟩] none 1 = some b.backendflag ∧
      b.createOk = true ∧
      (⟨7, 3, true⟩ : SDL_GpuDevice).backend = b.backendflag ∧
      (⟨7, 3, true⟩ : SDL_GpuDevice).shaderFormats = b.shaderFormats ∧
      (⟨7, 3, true⟩ : SDL_GpuDevice).debugMode = true :=
  C7_device_stores_backend_formats_debug [⟨"vulkan", 3, 7, true, true⟩] none 1 true
    ⟨7, 3, true⟩ (by decide)

/-- C7, counterexample to the claim as stated: request only format bit 1
from a backend advertising bits 1 and 2 (`shaderFormats = 3`).  The
constructed device stores `shaderFormats = 3` — the backend's full set —
whereas the intersection of requested and supported formats is `1`. -/
theorem C7_counterexample :
    SDL_GpuCreateDeviceWithProperties [⟨"vulkan", 3, 7, true, true⟩] none 1 true =
      some ⟨7, 3, true⟩ ∧
    (1 : Nat) &&& 3 = 1 ∧
    (3 : Nat) ≠ 1 &&& 3 := by
  decide

/-! ## D3D12 back end: root signatures and graphics pipelines
(SDL_gpu_d3d12.c lines 598-737 and 943-1033) -/

/-- `D3D12_DESCRIPTOR_RANGE_TYPE`. -/
inductive DescriptorRangeType where
  | SRV
  | UAV
  | CBV
  | SAMPLER
deriving DecidableEq, Repr

/-- One synthesized root parameter: always a descriptor table holding a
single range, with `BaseShaderRegister = 0`, `RegisterSpace = 0`, append
offset and `ALL` visibility — those fields are literal constants in
`D3D12_INTERNAL_CreateRootSignature`, so only the range type and the
descriptor count vary. -/
structure RootParameter where
  rangeType : DescriptorRangeType
  numDescriptors : Nat
deriving DecidableEq, Repr

/-- `MAX_ROOT_SIGNATURE_PARAMETERS` (SDL_gpu_d3d12.c line 79). -/
def MAX_ROOT_SIGNATURE_PARAMETERS : Nat := 64

/-- One conditional block of `D3D12_INTERNAL_CreateRootSignature`: when
`count > 0`, first fail if `parameterCount >= MAX_ROOT_SIGNATURE_PARAMETERS`,
otherwise append one descriptor table of the given range type. -/
def appendDescriptorTable (acc : Option (List RootParameter))
    (rangeType : DescriptorRangeType) (count : Nat) : Option (List RootParameter) :=
  match acc with
  | none => none
  | some params =>
      if count > 0 then
        if params.length ≥ MAX_ROOT_SIGNATURE_PARAMETERS then none
        else some (params ++ [⟨rangeType, count⟩])
      else some params

/-- `D3D12_INTERNAL_CreateRootSignature` (SDL_gpu_d3d12.c lines 598-737):
the root parameters are appended in the source's order — uniform buffers
(CBV), storage buffers (UAV), storage textures (UAV), samplers (SAMPLER) —
one table per non-zero count.  The native serialize/create steps do not
change the layout and are not modelled. -/
def D3D12_INTERNAL_CreateRootSignature (samplerCount uniformBufferCount
    storageBufferCount storageTextureCount : Nat) : Option (List RootParameter) :=
  appendDescriptorTable
    (appendDescriptorTable
      (appendDescriptorTable
        (appendDescriptorTable (some []) .CBV uniformBufferCount)
        .UAV storageBufferCount)
      .UAV storageTextureCount)
    .SAMPLER samplerCount

/-- The resource-count fields of `SDL_GpuShaderCreateInfo` (the
bytecode/entry-point fields are irrelevant to the claims). -/
structure SDL_GpuShaderCreateInfo where
  samplerCount : Nat
  storageBufferCount : Nat
  storageTextureCount : Nat
  uniformBufferCount : Nat
deriving DecidableEq, Repr

/-- `D3D12Shader` (SDL_gpu_d3d12.c lines 410-420), resource counts only. -/
structure D3D12Shader where
  samplerCount : Nat
  uniformBufferCount : Nat
  storageBufferCount : Nat
  storageTextureCount : Nat
deriving DecidableEq, Repr

/-- `D3D12_CreateShader` (SDL_gpu_d3d12.c lines 1043-1078), restricted to
the count assignments of lines 1069-1072: the shader object stores the
create-info's counts verbatim. -/
def D3D12_CreateShader (shaderCreateInfo : SDL_GpuShaderCreateInfo) : D3D12Shader :=
  ⟨shaderCreateInfo.samplerCount, shaderCreateInfo.uniformBufferCount,
   shaderCreateInfo.storageBufferCount, shaderCreateInfo.storageTextureCount⟩

/-- `D3D12GraphicsPipeline` (SDL_gpu_d3d12.c lines 422-438), restricted to
the root signature and the per-stage resource counts (the native PSO,
primitive type, blend constants and stencil reference are orthogonal to
the claim). -/
structure D3D12GraphicsPipeline where
  rootSignature : List RootParameter
  vertexSamplerCount : Nat
  vertexUniformBufferCount : Nat
  vertexStorageBufferCount : Nat
  vertexStorageTextureCount : Nat
  fragmentSamplerCount : Nat
  fragmentUniformBufferCount : Nat
  fragmentStorageBufferCount : Nat
  fragmentStorageTextureCount : Nat
deriving DecidableEq, Repr

/-- `D3D12_CreateGraphicsPipeline` (SDL_gpu_d3d12.c lines 943-1033),
restricted to the root-signature synthesis and the stored counts: the
shared signature uses the element-wise max of the vertex and fragment
shader counts (lines 951-954); on success the pipeline stores each
stage's own counts (lines 1022-1030).  `nativePsoCreateOk` stands for the
outcome of `ID3D12Device_CreateGraphicsPipelineState`; the untranslated
PSO plumbing (input layout, rasterizer/blend/depth-stencil conversion)
neither affects the stored counts nor the root signature. -/
def D3D12_CreateGraphicsPipeline (vertShader fragShader : D3D12Shader)
    (nativePsoCreateOk : Bool) : Option D3D12GraphicsPipeline :=
  let samplerCount := max vertShader.samplerCount fragShader.samplerCount
  let uniformBufferCount := max vertShader.uniformBufferCount fragShader.uniformBufferCount
  let storageBufferCount := max vertShader.storageBufferCount fragShader.storageBufferCount
  let storageTextureCount := max vertShader.storageTextureCount fragShader.storageTextureCount
  match D3D12_INTERNAL_CreateRootSignature samplerCount uniformBufferCount
      storageBufferCount storageTextureCount with
  | none => none
  | some rootSignature =>
      if nativePsoCreateOk then
        some ⟨rootSignature,
          vertShader.samplerCount, vertShader.uniformBufferCount,
          vertShader.storageBufferCount, vertShader.storageTextureCount,
          fragShader.samplerCount, fragShader.uniformBufferCount,
          fragShader.storageBufferCount, fragShader.storageTextureCount⟩
      else none

/-- Modelled from the spec: the root-signature layout in the spec's words —
"one descriptor table per non-empty category, in the order CBV (uniforms)
→ UAV (storage buffers) → UAV (storage textures) → SAMPLER".  Compared
against `D3D12_INTERNAL_CreateRootSignature` by refinement. -/
def specRootSignatureLayout (samplerCount uniformBufferCount
    storageBufferCount storageTextureCount : Nat) : List RootParameter :=
  (if uniformBufferCount > 0 then [⟨.CBV, uniformBufferCount⟩] else []) ++
  (if storageBufferCount > 0 then [⟨.UAV, storageBufferCount⟩] else []) ++
  (if storageTextureCount > 0 then [⟨.UAV, storageTextureCount⟩] else []) ++
  (if samplerCount > 0 then [⟨.SAMPLER, samplerCount⟩] else [])

theorem createRootSignature_eq_spec (s u b t : Nat) :
    D3D12_INTERNAL_CreateRootSignature s u b t =
      some (specRootSignatureLayout s u b t) := by
  unfold D3D12_INTERNAL_CreateRootSignature appendDescriptorTable specRootSignatureLayout
    MAX_ROOT_SIGNATURE_PARAMETERS
  rcases Nat.eq_zero_or_pos u with hu | hu <;>
    rcases Nat.eq_zero_or_pos b with hb | hb <;>
      rcases Nat.eq_zero_or_pos t with ht | ht <;>
        rcases Nat.eq_zero_or_pos s with hs | hs <;>
          simp_all

/-- C4: for every successfully created graphics pipeline, the stored
per-stage resource counts equal the counts declared by the create-info's
vertex and fragment shaders, and the synthesized root signature has
exactly one descriptor table per non-empty category, in the order
CBV (uniforms), UAV (storage buffers), UAV (storage textures), SAMPLER,
with category counts the element-wise max of the vertex and fragment
shader counts. -/
theorem C4_pipeline_counts_and_root_signature (vertShader fragShader : D3D12Shader)
    (nativePsoCreateOk : Bool) (p : D3D12GraphicsPipeline)
    (h : D3D12_CreateGraphicsPipeline vertShader fragShader nativePsoCreateOk = some p) :
    p.vertexSamplerCount = vertShader.samplerCount ∧
    p.vertexUniformBufferCount = vertShader.uniformBufferCount ∧
    p.vertexStorageBufferCount = vertShader.storageBufferCount ∧
    p.vertexStorageTextureCount = vertShader.storageTextureCount ∧
    p.fragmentSamplerCount = fragShader.samplerCount ∧
    p.fragmentUniformBufferCount = fragShader.uniformBufferCount ∧
    p.fragmentStorageBufferCount = fragShader.storageBufferCount ∧
    p.fragmentStorageTextureCount = fragShader.storageTextureCount ∧
    p.rootSignature = specRootSignatureLayout
      (max vertShader.samplerCount fragShader.samplerCount)
      (max vertShader.uniformBufferCount fragShader.uniformBufferCount)
      (max vertShader.storageBufferCount fragShader.storageBufferCount)
      (max vertShader.storageTextureCount fragShader.storageTextureCount) := by
  unfold D3D12_CreateGraphicsPipeline at h
  dsimp only at h
  rw [createRootSignature_eq_spec] at h
  dsimp only at h
  cases nativePsoCreateOk with
  | false => simp at h
  | true =>
      simp only [if_true, Option.some.injEq] at h
      subst h
      exact ⟨rfl, rfl, rfl, rfl, rfl, rfl, rfl, rfl, rfl⟩

/-- Witness for `C4_pipeline_counts_and_root_signature`: the 2D renderer's
textured-triangle pipeline shape (vertex shader: 1 uniform buffer;
fragment shader: 1 sampler). -/
theorem C4_pipeline_counts_and_root_signature_witness :
    (D3D12GraphicsPipeline.mk [⟨.CBV, 1⟩, ⟨.SAMPLER, 1⟩]
        0 1 0 0 1 0 0 0).rootSignature =
      specRootSignatureLayout 1 1 0 0 ∧
    (D3D12GraphicsPipeline.mk [⟨.CBV, 1⟩, ⟨.SAMPLER, 1⟩]
        0 1 0 0 1 0 0 0).vertexUniformBufferCount = 1 :=
  ⟨(C4_pipeline_counts_and_root_signature ⟨0, 1, 0, 0⟩ ⟨1, 0, 0, 0⟩ true
      ⟨[⟨.CBV, 1⟩, ⟨.SAMPLER, 1⟩], 0, 1, 0, 0, 1, 0, 0, 0⟩ (by decide)).2.2.2.2.2.2.2.2,
   (C4_pipeline_counts_and_root_signature ⟨0, 1, 0, 0⟩ ⟨1, 0, 0, 0⟩ true
      ⟨[⟨.CBV, 1⟩, ⟨.SAMPLER, 1⟩], 0, 1, 0, 0, 1, 0, 0, 0⟩ (by decide)).2.1⟩

/-! ## D3D12 render pass begin (SDL_gpu_d3d12.c lines 1211-1325) -/

/-- RGBA clear color.  The embedded code only copies the four channels
(it performs no arithmetic on them), so the source's float channels are
carried opaquely as integers — think of them as fixed-point hundredths. -/
structure FColor where
  r : Int
  g : Int
  b : Int
  a : Int
deriving DecidableEq, Repr

/-- `SDL_GpuLoadOp`. -/
inductive SDL_GpuLoadOp where
  | LOAD
  | CLEAR
  | DONT_CARE
deriving DecidableEq, Repr

/-- `D3D12_RESOURCE_STATES`, restricted to the two states the render-pass
transitions use. -/
inductive D3D12ResourceState where
  | PRESENT
  | RENDER_TARGET
deriving DecidableEq, Repr

/-- `D3D12Texture` (SDL_gpu_d3d12.c lines 323-330): native resource
(identified by id), its descriptor width/height, RTV handle (id) and the
render-target flag. -/
structure D3D12Texture where
  resourceId : Nat
  width : Nat
  height : Nat
  rtvHandle : Nat
  isRenderTarget : Bool
deriving DecidableEq, Repr

/-- `SDL_GpuColorAttachmentInfo` as read by `D3D12_BeginRenderPass`:
texture slice (texture + mip level), load op and clear color. -/
structure SDL_GpuColorAttachmentInfo where
  texture : D3D12Texture
  mipLevel : Nat
  loadOp : SDL_GpuLoadOp
  clearColor : FColor
deriving DecidableEq, Repr

/-- Depth-stencil attachment: only the fields `D3D12_BeginRenderPass`
reads (texture slice for the extent fold and the render-target check). -/
structure SDL_GpuDepthStencilAttachmentInfo where
  texture : D3D12Texture
  mipLevel : Nat
deriving DecidableEq, Repr

/-- A command recorded on the native graphics command list. -/
inductive D3D12RecordedCommand where
  | resourceBarrier (resourceId : Nat) (stateBefore stateAfter : D3D12ResourceState)
  | omSetRenderTargets (rtvHandle : Nat)
  | clearRenderTargetView (rtvHandle : Nat) (clearColor : FColor)
  | rsSetViewports (x y w h minDepth maxDepth : Nat)
  | rsSetScissorRects (x y w h : Nat)
deriving DecidableEq, Repr

def UINT32_MAX : Nat := 4294967295

/-- The extent fold of `D3D12_BeginRenderPass` (lines 1222-1266): the
framebuffer extent starts at `UINT32_MAX` and is clamped by
`width >> mipLevel` / `height >> mipLevel` of every color attachment and
of the depth-stencil attachment when present. -/
def framebufferExtent (colorAttachmentInfos : List SDL_GpuColorAttachmentInfo)
    (depthStencilAttachmentInfo : Option SDL_GpuDepthStencilAttachmentInfo) : Nat × Nat :=
  let dims := colorAttachmentInfos.foldl
    (fun (acc : Nat × Nat) info =>
      (min acc.1 (info.texture.width >>> info.mipLevel),
       min acc.2 (info.texture.height >>> info.mipLevel)))
    (UINT32_MAX, UINT32_MAX)
  match depthStencilAttachmentInfo with
  | some d =>
      (min dims.1 (d.texture.width >>> d.mipLevel), min dims.2 (d.texture.height >>> d.mipLevel))
  | none => dims

/-- `D3D12_BeginRenderPass` (SDL_gpu_d3d12.c lines 1211-1325): after the
extent fold and the render-target validation (early return — `none` — when
any attachment texture lacks the render-target designation), for EVERY
color attachment the function records a PRESENT→RENDER_TARGET transition
barrier, sets the render-target view, and calls
`ClearRenderTargetView` with the attachment's clear color — the source
never consults `loadOp` (there is no test on it anywhere in the function);
finally the default full-framebuffer viewport (minDepth 0, maxDepth 1) and
scissor are recorded.  The WIP back end records no depth-stencil commands. -/
def D3D12_BeginRenderPass (colorAttachmentInfos : List SDL_GpuColorAttachmentInfo)
    (depthStencilAttachmentInfo : Option SDL_GpuDepthStencilAttachmentInfo) :
    Option (List D3D12RecordedCommand) :=
  let dims := framebufferExtent colorAttachmentInfos depthStencilAttachmentInfo
  if colorAttachmentInfos.all (fun info => info.texture.isRenderTarget) &&
      (match depthStencilAttachmentInfo with
       | some d => d.texture.isRenderTarget
       | none => true) then
    some ((colorAttachmentInfos.flatMap fun info =>
      [.resourceBarrier info.texture.resourceId .PRESENT .RENDER_TARGET,
       .omSetRenderTargets info.texture.rtvHandle,
       .clearRenderTargetView info.texture.rtvHandle info.clearColor]) ++
      [.rsSetViewports 0 0 dims.1 dims.2 0 1,
       .rsSetScissorRects 0 0 dims.1 dims.2])
  else
    none

/-- C5 failing input, evaluated: a 640×480 swapchain back buffer bound as
the single color attachment with `loadOp = LOAD` — whose prior contents
the claim says must be preserved — still gets a recorded
`ClearRenderTargetView` with the provided color: `D3D12_BeginRenderPass`
clears unconditionally, ignoring the load op. -/
theorem C5_clear_recorded_for_loadop_load :
    D3D12_BeginRenderPass
      [⟨⟨1, 640, 480, 5, true⟩, 0, .LOAD, ⟨25, 50, 75, 100⟩⟩] none =
    some [.resourceBarrier 1 .PRESENT .RENDER_TARGET,
          .omSetRenderTargets 5,
          .clearRenderTargetView 5 ⟨25, 50, 75, 100⟩,
          .rsSetViewports 0 0 640 480 0 1,
          .rsSetScissorRects 0 0 640 480] := by
  decide

/-! ## D3D12 uniform-buffer pool and submission
(SDL_gpu_d3d12.c lines 1327-1420 and 2206-2247) -/

/-- The fields of `D3D12Renderer` (SDL_gpu_d3d12.c lines 332-349) touched
by the uniform-buffer pool: the pool stack (`uniformBufferPool` plus
`uniformBufferPoolCount`; the C code pops/reads at index `count - 1`, so
the list head models the stack top) and a counter supplying fresh ids for
`D3D12_INTERNAL_CreateUniformBuffer` allocations. -/
structure D3D12Renderer where
  uniformBufferPool : List Nat
  nextUniformBufferId : Nat
deriving DecidableEq, Repr

/-- The fields of `D3D12CommandBuffer` (SDL_gpu_d3d12.c lines 351-408)
that the claims touch: the used-uniform-buffer list with its separately
tracked capacity, the monotonically increasing fence value, and the
active-window chain (window ids). -/
structure D3D12CommandBuffer where
  usedUniformBuffers : List Nat
  usedUniformBufferCapacity : Nat
  fenceValue : Nat
  nextWindowChain : List Nat
deriving DecidableEq, Repr

/-- `D3D12_INTERNAL_TrackUniformBuffer` (SDL_gpu_d3d12.c lines 1327-1349):
no-op when the buffer is already tracked; otherwise, when the used list is
at capacity, the capacity grows by exactly one (`capacity += 1` followed
by `SDL_realloc`), and the buffer is appended. -/
def D3D12_INTERNAL_TrackUniformBuffer (commandBuffer : D3D12CommandBuffer)
    (uniformBuffer : Nat) : D3D12CommandBuffer :=
  if uniformBuffer ∈ commandBuffer.usedUniformBuffers then
    commandBuffer
  else
    let capacity :=
      if commandBuffer.usedUniformBuffers.length = commandBuffer.usedUniformBufferCapacity then
        commandBuffer.usedUniformBufferCapacity + 1
      else
        commandBuffer.usedUniformBufferCapacity
    { commandBuffer with
        usedUniformBuffers := commandBuffer.usedUniformBuffers ++ [uniformBuffer],
        usedUniformBufferCapacity := capacity }

/-- `D3D12_INTERNAL_AcquireUniformBufferFromPool` (SDL_gpu_d3d12.c lines
1402-1420): pop the pool top when the pool is non-empty, otherwise create
a fresh `UNIFORM_BUFFER_SIZE` buffer; then track the lease on the command
buffer.  Returns (renderer, command buffer, leased buffer id). -/
def D3D12_INTERNAL_AcquireUniformBufferFromPool (renderer : D3D12Renderer)
    (commandBuffer : D3D12CommandBuffer) : D3D12Renderer × D3D12CommandBuffer × Nat :=
  match renderer.uniformBufferPool with
  | [] =>
      let uniformBuffer := renderer.nextUniformBufferId
      ({ renderer with nextUniformBufferId := uniformBuffer + 1 },
       D3D12_INTERNAL_TrackUniformBuffer commandBuffer uniformBuffer,
       uniformBuffer)
  | top :: rest =>
      ({ renderer with uniformBufferPool := rest },
       D3D12_INTERNAL_TrackUniformBuffer commandBuffer top,
       top)

/-- `D3D12_Submit` (SDL_gpu_d3d12.c lines 2206-2247): closes and executes
the native command list, presents and unlinks every window on the active
chain, signals the fence and increments `fenceValue`, waits when the
completed value lags, and resets the allocator and command list.  The
function never touches `usedUniformBuffers`, `usedUniformBufferCapacity`
or the renderer's `uniformBufferPool` — there is no lease-return code. -/
def D3D12_Submit (renderer : D3D12Renderer) (commandBuffer : D3D12CommandBuffer) :
    D3D12Renderer × D3D12CommandBuffer :=
  (renderer,
   { commandBuffer with
       nextWindowChain := [],
       fenceValue := commandBuffer.fenceValue + 1 })

/-- C6 failing input, evaluated: starting from an empty pool and a fresh
command buffer, leasing one uniform buffer tracks it in the grow-by-one
used array (capacity 0 → 1) — that half of the claim holds — but after
`D3D12_Submit` completes (including its fence wait) the lease is still in
the used list and the pool is still empty: submission returns nothing to
the pool.  The claim's post-submission state (used list empty, lease back
in the pool) never materializes. -/
theorem C6_leases_not_returned_on_submit :
    (D3D12_INTERNAL_AcquireUniformBufferFromPool ⟨[], 0⟩ ⟨[], 0, 0, []⟩).2.2 = 0 ∧
    (D3D12_INTERNAL_AcquireUniformBufferFromPool ⟨[], 0⟩
      ⟨[], 0, 0, []⟩).2.1.usedUniformBuffers = [0] ∧
    (D3D12_INTERNAL_AcquireUniformBufferFromPool ⟨[], 0⟩
      ⟨[], 0, 0, []⟩).2.1.usedUniformBufferCapacity = 1 ∧
    (D3D12_Submit (D3D12_INTERNAL_AcquireUniformBufferFromPool ⟨[], 0⟩ ⟨[], 0, 0, []⟩).1
        (D3D12_INTERNAL_AcquireUniformBufferFromPool ⟨[], 0⟩
          ⟨[], 0, 0, []⟩).2.1).2.usedUniformBuffers = [0] ∧
    (D3D12_Submit (D3D12_INTERNAL_AcquireUniformBufferFromPool ⟨[], 0⟩ ⟨[], 0, 0, []⟩).1
        (D3D12_INTERNAL_AcquireUniformBufferFromPool ⟨[], 0⟩
          ⟨[], 0, 0, []⟩).2.1).1.uniformBufferPool = [] := by
  decide

/-- The true half of C6, in general form: every lease handed out by
`D3D12_INTERNAL_AcquireUniformBufferFromPool` is tracked in the used list,
`D3D12_INTERNAL_TrackUniformBuffer` grows the capacity by exactly one when
the list is full, and `D3D12_Submit` leaves the used list, its capacity
and the pool exactly as they were. -/
theorem C6_tracking_and_submit_effect :
    (∀ (r : D3D12Renderer) (cb : D3D12CommandBuffer),
        (D3D12_INTERNAL_AcquireUniformBufferFromPool r cb).2.2 ∈
          (D3D12_INTERNAL_AcquireUniformBufferFromPool r cb).2.1.usedUniformBuffers) ∧
    (∀ (cb : D3D12CommandBuffer) (ub : Nat),
        cb.usedUniformBuffers.length = cb.usedUniformBufferCapacity →
        ub ∉ cb.usedUniformBuffers →
        (D3D12_INTERNAL_TrackUniformBuffer cb ub).usedUniformBufferCapacity =
          cb.usedUniformBufferCapacity + 1) ∧
    (∀ (r : D3D12Renderer) (cb : D3D12CommandBuffer),
        (D3D12_Submit r cb).2.usedUniformBuffers = cb.usedUniformBuffers ∧
        (D3D12_Submit r cb).2.usedUniformBufferCapacity = cb.usedUniformBufferCapacity ∧
        (D3D12_Submit r cb).1.uniformBufferPool = r.uniformBufferPool) := by
  refine ⟨?_, ?_, ?_⟩
  · intro r cb
    unfold D3D12_INTERNAL_AcquireUniformBufferFromPool D3D12_INTERNAL_TrackUniformBuffer
    cases hp : r.uniformBufferPool with
    | nil => dsimp only; split_ifs <;> simp_all
    | cons top rest => dsimp only; split_ifs <;> simp_all
  · intro cb ub h1 h2
    unfold D3D12_INTERNAL_TrackUniformBuffer
    split_ifs <;> simp_all
  · intro r cb
    exact ⟨rfl, rfl, rfl⟩

/-- Witness for `C6_tracking_and_submit_effect`. -/
theorem C6_tracking_and_submit_effect_witness :
    (D3D12_INTERNAL_AcquireUniformBufferFromPool ⟨[9], 3⟩ ⟨[], 0, 0, []⟩).2.2 ∈
      (D3D12_INTERNAL_AcquireUniformBufferFromPool ⟨[9], 3⟩
        ⟨[], 0, 0, []⟩).2.1.usedUniformBuffers ∧
    (D3D12_INTERNAL_TrackUniformBuffer ⟨[4], 1, 0, []⟩ 7).usedUniformBufferCapacity = 2 :=
  ⟨C6_tracking_and_submit_effect.1 ⟨[9], 3⟩ ⟨[], 0, 0, []⟩,
   C6_tracking_and_submit_effect.2.1 ⟨[4], 1, 0, []⟩ 7 (by decide) (by decide)⟩

/-! ## 2D renderer: per-frame present and fence rotation
(renderer translation unit, `GPU_RenderPresent`) -/

/-- The fence-rotation state of `GPU_RenderData`: the single stored
`present_fence` and the index of the next present (which doubles as the
label of the fence that present will acquire; fences are identified by the
present that created them). -/
structure RendererPresentState where
  presentFence : Option Nat
  frameIndex : Nat
deriving DecidableEq, Repr

/-- The externally visible actions of one `GPU_RenderPresent` call, in
program order. -/
inductive PresentEvent where
  | submitAndAcquireFence (fence : Nat)
  | waitForFence (fence : Nat)
  | releaseFence (fence : Nat)
  | acquireCommandBuffer
deriving DecidableEq, Repr

/-- `GPU_RenderPresent` (renderer unit, lines 3094-3112): submit the
current command buffer acquiring `next_fence`; if a `present_fence` is
stored, wait on it and release it; store `next_fence`; acquire a fresh
command buffer (and re-acquire the swapchain texture) for the next frame. -/
def GPU_RenderPresent (st : RendererPresentState) :
    RendererPresentState × List PresentEvent :=
  let nextFence := st.frameIndex
  let waitEvents : List PresentEvent :=
    match st.presentFence with
    | some f => [.waitForFence f, .releaseFence f]
    | none => []
  (⟨some nextFence, st.frameIndex + 1⟩,
   .submitAndAcquireFence nextFence :: waitEvents ++ [.acquireCommandBuffer])

/-- Renderer state after `n` presents; `GPU_CreateRenderer` starts with no
stored fence (`present_fence` is NULL in the zero-initialized
`GPU_RenderData`). -/
def runPresents : Nat → RendererPresentState
  | 0 => ⟨none, 0⟩
  | n + 1 => (GPU_RenderPresent (runPresents n)).1

/-- The events of present number `n` (0-based). -/
def eventsOfPresent (n : Nat) : List PresentEvent :=
  (GPU_RenderPresent (runPresents n)).2

/-- Concatenated event trace of the first `n` presents. -/
def presentTrace : Nat → List PresentEvent
  | 0 => []
  | n + 1 => presentTrace n ++ eventsOfPresent n

/-- Fences acquired in a trace. -/
def acquiredFences (events : List PresentEvent) : List Nat :=
  events.filterMap fun e =>
    match e with
    | .submitAndAcquireFence f => some f
    | _ => none

/-- Fences released in a trace. -/
def releasedFences (events : List PresentEvent) : List Nat :=
  events.filterMap fun e =>
    match e with
    | .releaseFence f => some f
    | _ => none

/-- Fences acquired but not (yet) released. -/
def outstandingFences (events : List PresentEvent) : List Nat :=
  (acquiredFences events).filter fun f => !(releasedFences events).contains f

theorem runPresents_succ (n : Nat) : runPresents (n + 1) = ⟨some n, n + 1⟩ := by
  induction n with
  | zero => rfl
  | succ k ih =>
      show (GPU_RenderPresent (runPresents (k + 1))).1 = _
      rw [ih]
      rfl

theorem eventsOfPresent_zero :
    eventsOfPresent 0 = [.submitAndAcquireFence 0, .acquireCommandBuffer] := rfl

theorem eventsOfPresent_succ (n : Nat) :
    eventsOfPresent (n + 1) =
      [.submitAndAcquireFence (n + 1), .waitForFence n, .releaseFence n,
       .acquireCommandBuffer] := by
  unfold eventsOfPresent
  rw [runPresents_succ]
  rfl

theorem acquiredFences_append (a b : List PresentEvent) :
    acquiredFences (a ++ b) = acquiredFences a ++ acquiredFences b :=
  List.filterMap_append a b _

theorem releasedFences_append (a b : List PresentEvent) :
    releasedFences (a ++ b) = releasedFences a ++ releasedFences b :=
  List.filterMap_append a b _

theorem acquiredFences_presentTrace (n : Nat) :
    acquiredFences (presentTrace n) = List.range n := by
  induction n with
  | zero => rfl
  | succ k ih =>
      show acquiredFences (presentTrace k ++ eventsOfPresent k) = _
      rw [acquiredFences_append, ih, List.range_succ]
      cases k with
      | zero => rfl
      | succ m => rw [eventsOfPresent_succ]; rfl

theorem releasedFences_presentTrace (n : Nat) :
    releasedFences (presentTrace (n + 1)) = List.range n := by
  induction n with
  | zero => rfl
  | succ k ih =>
      show releasedFences (presentTrace (k + 1) ++ eventsOfPresent (k + 1)) = _
      rw [releasedFences_append, ih, eventsOfPresent_succ, List.range_succ]
      rfl

/-- C9: the per-frame present cycle of the 2D renderer.  Present call `N`
(0-based) ends frame `N`; its trailing `SDL_GpuAcquireCommandBuffer`
starts frame `N+1`'s recording.  The theorem states: (a) after every
present exactly the just-acquired fence is stored; (b) present 0 performs
no wait; (c) present `N+1` consists, in program order, of
submit-and-acquire of fence `N+1`, then wait and release of fence `N`,
then acquisition of the command buffer that starts frame `N+2` — so the
fence returned by frame `N` is waited on and released at the start of
frame `N+2`; and (d) after any positive number of presents exactly one
fence is outstanding, namely the one from the latest present. -/
theorem C9_present_fence_rotation :
    (∀ n : Nat, runPresents (n + 1) = ⟨some n, n + 1⟩) ∧
    eventsOfPresent 0 = [.submitAndAcquireFence 0, .acquireCommandBuffer] ∧
    (∀ n : Nat, eventsOfPresent (n + 1) =
      [.submitAndAcquireFence (n + 1), .waitForFence n, .releaseFence n,
       .acquireCommandBuffer]) ∧
    (∀ n : Nat, outstandingFences (presentTrace (n + 1)) = [n]) := by
  refine ⟨runPresents_succ, eventsOfPresent_zero, eventsOfPresent_succ, ?_⟩
  intro n
  unfold outstandingFences
  rw [acquiredFences_presentTrace, releasedFences_presentTrace, List.range_succ,
    List.filter_append]
  have h1 : (List.range n).filter (fun f => !(List.range n).contains f) = [] := by
    apply List.filter_eq_nil_iff.mpr
    intro a ha
    simp [List.elem_eq_mem, ha]
  have h2 : [n].filter (fun f => !(List.range n).contains f) = [n] := by
    simp [List.elem_eq_mem, List.mem_range]
  rw [h1, h2]
  rfl

/-! ## 2D renderer: command-queue consumption and draw batching
(renderer translation unit, `GPU_RunCommandQueue`, lines 2898-3074, and
`Draw`, lines 2799-2865) -/

/-- The `data.draw` payload of a render command: texture identity
(pointer, `none` = NULL), blend mode, vertex count and vertex-buffer
offset (`first`). -/
structure DrawCmdData where
  texture : Option Nat
  blend : Nat
  count : Nat
  first : Nat
deriving DecidableEq, Repr

/-- `SDL_RenderCommand` kinds consumed by `GPU_RunCommandQueue`.  The
non-draw commands update renderer state (draw color, viewport, scissor,
pending clear) but emit no draw call and break any batching run, so their
payloads are not needed here. -/
inductive SDL_RenderCommand where
  | setDrawColor
  | setViewport
  | setClipRect
  | clear
  | fillRects
  | copy
  | copyEx
  | drawLines (draw : DrawCmdData)
  | drawPoints (draw : DrawCmdData)
  | geometry (draw : DrawCmdData)
  | noOp
deriving DecidableEq, Repr

/-- `SDL_GpuPrimitiveType`, the primitives `Draw` is invoked with. -/
inductive SDL_GpuPrimitiveType where
  | POINTLIST
  | LINELIST
  | LINESTRIP
  | TRIANGLELIST
  | TRIANGLESTRIP
deriving DecidableEq, Repr

/-- One native draw call as issued by `Draw` (which binds the pipeline for
(blend, shaders from texture/primitive), binds the texture sampler when
present, binds the vertex buffer at `offset`, pushes uniforms, and calls
`SDL_GpuDrawPrimitives(pass, 0, num_verts)`). -/
structure DrawCall where
  primitiveType : SDL_GpuPrimitiveType
  numVerts : Nat
  offset : Nat
  texture : Option Nat
  blend : Nat
deriving DecidableEq, Repr

/-- The `DRAW_LINES` grouping loop (lines 2993-3010): starting after the
first command, accumulate following `DRAW_LINES` commands as long as each
has `count == 2` and the same blend mode; stop at the first command that
breaks the run.  Returns the accumulated extra vertex count and the
commands remaining after the last grouped one. -/
def groupNonJoinedLines (blend : Nat) :
    List SDL_RenderCommand → Nat × List SDL_RenderCommand
  | [] => (0, [])
  | c :: rest =>
      match c with
      | .drawLines d =>
          if d.count ≠ 2 then (0, .drawLines d :: rest)
          else if d.blend ≠ blend then (0, .drawLines d :: rest)
          else
            let r := groupNonJoinedLines blend rest
            (d.count + r.1, r.2)
      | _ => (0, c :: rest)

/-- Kind tag distinguishing the two commands that share the
points/geometry grouping loop. -/
inductive PGKind where
  | points
  | geometry
deriving DecidableEq, Repr

/-- Rebuild the render command of a points/geometry kind. -/
def mkPG : PGKind → DrawCmdData → SDL_RenderCommand
  | .points, d => .drawPoints d
  | .geometry, d => .geometry d

/-- The primitive `Draw` receives for each kind (line 3046-3049). -/
def pgPrimitive : PGKind → SDL_GpuPrimitiveType
  | .points => .POINTLIST
  | .geometry => .TRIANGLELIST

/-- The `DRAW_POINTS`/`GEOMETRY` grouping loop (lines 3030-3042): starting
after the first command, accumulate following commands of the SAME kind
with the same texture identity and blend mode; stop at the first
non-matching command. -/
def groupPointsGeometry (kind : PGKind) (texture : Option Nat) (blend : Nat) :
    List SDL_RenderCommand → Nat × List SDL_RenderCommand
  | [] => (0, [])
  | c :: rest =>
      match kind, c with
      | .points, .drawPoints d =>
          if d.texture = texture ∧ d.blend = blend then
            let r := groupPointsGeometry .points texture blend rest
            (d.count + r.1, r.2)
          else (0, .drawPoints d :: rest)
      | .geometry, .geometry d =>
          if d.texture = texture ∧ d.blend = blend then
            let r := groupPointsGeometry .geometry texture blend rest
            (d.count + r.1, r.2)
          else (0, .geometry d :: rest)
      | _, _ => (0, c :: rest)

theorem groupNonJoinedLines_rest_length (blend : Nat) (l : List SDL_RenderCommand) :
    (groupNonJoinedLines blend l).2.length ≤ l.length := by
  induction l with
  | nil => simp [groupNonJoinedLines]
  | cons c rest ih =>
      unfold groupNonJoinedLines
      cases c <;> simp <;> split_ifs <;> simp <;> omega

theorem groupPointsGeometry_rest_length (kind : PGKind) (texture : Option Nat) (blend : Nat)
    (l : List SDL_RenderCommand) :
    (groupPointsGeometry kind texture blend l).2.length ≤ l.length := by
  induction l with
  | nil => cases kind <;> simp [groupPointsGeometry]
  | cons c rest ih =>
      unfold groupPointsGeometry
      cases kind <;> cases c <;> simp <;> split_ifs <;> simp <;> omega

/-- `GPU_RunCommandQueue` (lines 2898-3074), restricted to the sequence of
native draw calls it emits.  `DRAW_LINES` with more than two vertices
(joined lines) is drawn immediately as one `LINESTRIP`, never grouped;
otherwise following two-vertex same-blend `DRAW_LINES` commands are merged
into one `LINELIST` draw.  `DRAW_POINTS`/`GEOMETRY` runs with equal kind,
texture identity and blend are merged into one `POINTLIST`/`TRIANGLELIST`
draw whose vertex count is the summed counts; the draw uses the first
command's `first` offset, texture and blend.  All other commands emit no
draw.  (`Draw` bails out when the pipeline cache cannot build a pipeline —
a back-end failure outside this translation unit — which is not
modelled.) -/
def GPU_RunCommandQueue : List SDL_RenderCommand → List DrawCall
  | [] => []
  | .drawLines d :: rest =>
      if d.count > 2 then
        ⟨.LINESTRIP, d.count, d.first, d.texture, d.blend⟩ :: GPU_RunCommandQueue rest
      else
        let r := groupNonJoinedLines d.blend rest
        ⟨.LINELIST, d.count + r.1, d.first, d.texture, d.blend⟩ :: GPU_RunCommandQueue r.2
  | .drawPoints d :: rest =>
      let r := groupPointsGeometry .points d.texture d.blend rest
      ⟨.POINTLIST, d.count + r.1, d.first, d.texture, d.blend⟩ :: GPU_RunCommandQueue r.2
  | .geometry d :: rest =>
      let r := groupPointsGeometry .geometry d.texture d.blend rest
      ⟨.TRIANGLELIST, d.count + r.1, d.first, d.texture, d.blend⟩ :: GPU_RunCommandQueue r.2
  | _ :: rest => GPU_RunCommandQueue rest
termination_by l => l.length
decreasing_by
  all_goals simp only [List.length_cons]
  all_goals first
    | omega
    | (have h := groupNonJoinedLines_rest_length d.blend rest; omega)
    | (have h := groupPointsGeometry_rest_length PGKind.points d.texture d.blend rest; omega)
    | (have h := groupPointsGeometry_rest_length PGKind.geometry d.texture d.blend rest; omega)

/-- The per-command continuation test of the points/geometry grouping
loop: same kind, same texture identity, same blend mode. -/
def pgMatches (kind : PGKind) (texture : Option Nat) (blend : Nat) :
    SDL_RenderCommand → Bool
  | .drawPoints d => kind == .points && d.texture == texture && d.blend == blend
  | .geometry d => kind == .geometry && d.texture == texture && d.blend == blend
  | _ => false

/-- A command list whose head (when any) breaks a points/geometry run. -/
def pgBreaks (kind : PGKind) (texture : Option Nat) (blend : Nat) :
    List SDL_RenderCommand → Bool
  | [] => true
  | c :: _ => !pgMatches kind texture blend c

/-- The per-command continuation test of the lines grouping loop:
a `DRAW_LINES` command with exactly two vertices and the same blend. -/
def linesMatches (blend : Nat) : SDL_RenderCommand → Bool
  | .drawLines d => d.count == 2 && d.blend == blend
  | _ => false

/-- A command list whose head (when any) breaks a non-joined-lines run. -/
def linesBreaks (blend : Nat) : List SDL_RenderCommand → Bool
  | [] => true
  | c :: _ => !linesMatches blend c

theorem groupPointsGeometry_of_breaks (kind : PGKind) (texture : Option Nat) (blend : Nat)
    (rest : List SDL_RenderCommand) (h : pgBreaks kind texture blend rest = true) :
    groupPointsGeometry kind texture blend rest = (0, rest) := by
  cases rest with
  | nil => cases kind <;> rfl
  | cons c rest' =>
      simp only [pgBreaks, pgMatches, Bool.not_eq_true'] at h
      unfold groupPointsGeometry
      cases kind <;> cases c <;> simp_all <;> split_ifs <;> simp_all

theorem groupPointsGeometry_run (kind : PGKind) (texture : Option Nat) (blend : Nat)
    (ds : List DrawCmdData) (rest : List SDL_RenderCommand)
    (hds : ∀ d ∈ ds, d.texture = texture ∧ d.blend = blend)
    (hrest : pgBreaks kind texture blend rest = true) :
    groupPointsGeometry kind texture blend (ds.map (mkPG kind) ++ rest) =
      ((ds.map DrawCmdData.count).sum, rest) := by
  induction ds with
  | nil => simpa using groupPointsGeometry_of_breaks kind texture blend rest hrest
  | cons d ds ih =>
      have hd := hds d (List.mem_cons_self d ds)
      have hds' : ∀ d2 ∈ ds, d2.texture = texture ∧ d2.blend = blend :=
        fun d2 h2 => hds d2 (List.mem_cons_of_mem d h2)
      cases kind with
      | points =>
          simp only [List.map_cons, List.cons_append, mkPG]
          unfold groupPointsGeometry
          dsimp only
          rw [if_pos ⟨hd.1, hd.2⟩, ih hds']
          simp
      | geometry =>
          simp only [List.map_cons, List.cons_append, mkPG]
          unfold groupPointsGeometry
          dsimp only
          rw [if_pos ⟨hd.1, hd.2⟩, ih hds']
          simp

theorem groupNonJoinedLines_of_breaks (blend : Nat) (rest : List SDL_RenderCommand)
    (h : linesBreaks blend rest = true) :
    groupNonJoinedLines blend rest = (0, rest) := by
  cases rest with
  | nil => rfl
  | cons c rest' =>
      simp only [linesBreaks, linesMatches, Bool.not_eq_true'] at h
      unfold groupNonJoinedLines
      cases c <;> simp_all <;> split_ifs <;> simp_all

theorem groupNonJoinedLines_run (blend : Nat) (ds : List DrawCmdData)
    (rest : List SDL_RenderCommand)
    (hds : ∀ d ∈ ds, d.count = 2 ∧ d.blend = blend)
    (hrest : linesBreaks blend rest = true) :
    groupNonJoinedLines blend (ds.map SDL_RenderCommand.drawLines ++ rest) =
      (2 * ds.length, rest) := by
  induction ds with
  | nil => simpa using groupNonJoinedLines_of_breaks blend rest hrest
  | cons d ds ih =>
      have hd := hds d (List.mem_cons_self d ds)
      have hds' : ∀ d2 ∈ ds, d2.count = 2 ∧ d2.blend = blend :=
        fun d2 h2 => hds d2 (List.mem_cons_of_mem d h2)
      simp only [List.map_cons, List.cons_append]
      unfold groupNonJoinedLines
      dsimp only
      rw [if_neg (by simp [hd.1]), if_neg (by simp [hd.2]), ih hds']
      simp [hd.1]
      ring

/-- C8: draw batching in `GPU_RunCommandQueue`.
(a) The S3 scenario: 50 consecutive `DRAW_POINTS` commands with count 1,
texture NULL and blend 0 produce exactly one draw call, a `POINTLIST` with
vertex count 50.
(b) In general, a maximal run of adjacent `DRAW_POINTS` (resp. `GEOMETRY`)
commands sharing texture identity and blend mode — the commands after the
run start with a breaker or are exhausted — is emitted as exactly ONE
native draw call (`POINTLIST` resp. `TRIANGLELIST`) whose vertex count is
the sum of the run's counts, using the first command's offset, texture and
blend; consumption then continues after the run.
(c) A `DRAW_LINES` command with more than two vertices (joined lines) is
emitted alone as one `LINESTRIP` draw and is never coalesced with its
successors, whatever they are.
(d) A run of two-vertex `DRAW_LINES` segments with equal blend mode is
coalesced into one `LINELIST` draw with the summed vertex count. -/
theorem C8_draw_batching :
    GPU_RunCommandQueue
        (List.replicate 50 (SDL_RenderCommand.drawPoints ⟨none, 0, 1, 0⟩)) =
      [⟨.POINTLIST, 50, 0, none, 0⟩] ∧
    (∀ (kind : PGKind) (d : DrawCmdData) (ds : List DrawCmdData)
        (rest : List SDL_RenderCommand),
        (∀ d2 ∈ ds, d2.texture = d.texture ∧ d2.blend = d.blend) →
        pgBreaks kind d.texture d.blend rest = true →
        GPU_RunCommandQueue (mkPG kind d :: (ds.map (mkPG kind) ++ rest)) =
          ⟨pgPrimitive kind, d.count + (ds.map DrawCmdData.count).sum, d.first,
            d.texture, d.blend⟩ :: GPU_RunCommandQueue rest) ∧
    (∀ (d : DrawCmdData) (rest : List SDL_RenderCommand), d.count > 2 →
        GPU_RunCommandQueue (SDL_RenderCommand.drawLines d :: rest) =
          ⟨.LINESTRIP, d.count, d.first, d.texture, d.blend⟩ ::
            GPU_RunCommandQueue rest) ∧
    (∀ (d : DrawCmdData) (ds : List DrawCmdData) (rest : List SDL_RenderCommand),
        d.count ≤ 2 →
        (∀ d2 ∈ ds, d2.count = 2 ∧ d2.blend = d.blend) →
        linesBreaks d.blend rest = true →
        GPU_RunCommandQueue
            (SDL_RenderCommand.drawLines d :: (ds.map SDL_RenderCommand.drawLines ++ rest)) =
          ⟨.LINELIST, d.count + 2 * ds.length, d.first, d.texture, d.blend⟩ ::
            GPU_RunCommandQueue rest) := by
  have hpg : ∀ (kind : PGKind) (d : DrawCmdData) (ds : List DrawCmdData)
      (rest : List SDL_RenderCommand),
      (∀ d2 ∈ ds, d2.texture = d.texture ∧ d2.blend = d.blend) →
      pgBreaks kind d.texture d.blend rest = true →
      GPU_RunCommandQueue (mkPG kind d :: (ds.map (mkPG kind) ++ rest)) =
        ⟨pgPrimitive kind, d.count + (ds.map DrawCmdData.count).sum, d.first,
          d.texture, d.blend⟩ :: GPU_RunCommandQueue rest := by
    intro kind d ds rest hds hrest
    cases kind with
    | points =>
        show GPU_RunCommandQueue (SDL_RenderCommand.drawPoints d :: _) = _
        rw [GPU_RunCommandQueue, groupPointsGeometry_run .points d.texture d.blend ds rest
          hds hrest]
        rfl
    | geometry =>
        show GPU_RunCommandQueue (SDL_RenderCommand.geometry d :: _) = _
        rw [GPU_RunCommandQueue, groupPointsGeometry_run .geometry d.texture d.blend ds rest
          hds hrest]
        rfl
  refine ⟨?_, hpg, ?_, ?_⟩
  · have h50 := hpg .points ⟨none, 0, 1, 0⟩ (List.replicate 49 ⟨none, 0, 1, 0⟩) []
      (by intro d2 h2; rw [List.eq_of_mem_replicate h2]; exact ⟨rfl, rfl⟩) rfl
    have hx : List.replicate 50 (SDL_RenderCommand.drawPoints ⟨none, 0, 1, 0⟩) =
        mkPG .points ⟨none, 0, 1, 0⟩ ::
          ((List.replicate 49 (⟨none, 0, 1, 0⟩ : DrawCmdData)).map (mkPG .points) ++ []) := by
      simp [mkPG]
    rw [hx, h50]
    simp [GPU_RunCommandQueue, pgPrimitive, List.sum_replicate]
  · intro d rest h
    rw [GPU_RunCommandQueue, if_pos h]
  · intro d ds rest hd hds hrest
    rw [GPU_RunCommandQueue, if_neg (by omega),
      groupNonJoinedLines_run d.blend ds rest hds hrest]

/-- Witness for `C8_draw_batching` at concrete inputs: two count-1
`DRAW_POINTS` with the same NULL texture and blend 0 coalesce into a
single 2-vertex `POINTLIST` draw; a 3-vertex joined `DRAW_LINES` followed
by a matching 2-vertex segment is NOT coalesced with it; two 2-vertex
segments coalesce into one 4-vertex `LINELIST` draw. -/
theorem C8_draw_batching_witness :
    GPU_RunCommandQueue
        [.drawPoints ⟨none, 0, 1, 0⟩, .drawPoints ⟨none, 0, 1, 8⟩] =
      [⟨.POINTLIST, 2, 0, none, 0⟩] ∧
    GPU_RunCommandQueue
        [.drawLines ⟨none, 0, 3, 0⟩, .drawLines ⟨none, 0, 2, 24⟩] =
      [⟨.LINESTRIP, 3, 0, none, 0⟩, ⟨.LINELIST, 2, 24, none, 0⟩] ∧
    GPU_RunCommandQueue
        [.drawLines ⟨none, 0, 2, 0⟩, .drawLines ⟨none, 0, 2, 16⟩] =
      [⟨.LINELIST, 4, 0, none, 0⟩] := by
  refine ⟨?_, ?_, ?_⟩
  · have h := C8_draw_batching.2.1 .points ⟨none, 0, 1, 0⟩ [⟨none, 0, 1, 8⟩] []
      (by intro d2 h2; simp at h2; simp [h2]) rfl
    simpa [mkPG, pgPrimitive, GPU_RunCommandQueue] using h
  · have h3 := C8_draw_batching.2.2.1 ⟨none, 0, 3, 0⟩ [.drawLines ⟨none, 0, 2, 24⟩]
      (by decide)
    have h2 := C8_draw_batching.2.2.2 ⟨none, 0, 2, 24⟩ [] [] (by decide)
      (by intro d2 h2; simp at h2) rfl
    rw [h3]
    simpa [GPU_RunCommandQueue] using h2
  · have h := C8_draw_batching.2.2.2 ⟨none, 0, 2, 0⟩ [⟨none, 0, 2, 16⟩] [] (by decide)
      (by intro d2 h2; simp at h2; simp [h2]) rfl
    simpa [GPU_RunCommandQueue] using h

end SDLGpu
